import Mathlib

/-!
Verification development for the pir8 game engine.

The repository contains two engine variants:
* the item-catalog variant (7x7 letter-digit grid of `GameItem`s, players
  accumulate `points`/`banked_points`, special items with block/reflect
  counter-play) — embedded in namespace `Grid`;
* the pirate strategy variant (10x10 territory map, ships, resources,
  turn skipping, weighted end-of-game scoring) — embedded in namespace
  `Pirate`.

Machine integers are embedded as `Nat` with explicit `% 2^w` at the
operations whose Rust counterparts wrap, and explicit saturation helpers
for the `saturating_*` operations.  Fallible instructions return
`Except`; an `Except.error` models an aborted (rolled back) transaction,
so the caller's state is unchanged in that case.
-/

/-- `u64::MAX`. -/
def U64MAX : Nat := 2 ^ 64 - 1

/-- Modulus of `u64` wrapping arithmetic. -/
def U64M : Nat := 2 ^ 64

/-- Modulus of `u32` wrapping arithmetic. -/
def U32M : Nat := 2 ^ 32

/-- `u64::saturating_add`. -/
def satAdd64 (a b : Nat) : Nat := min (a + b) U64MAX

/-- `u64::saturating_mul`. -/
def satMul64 (a b : Nat) : Nat := min (a * b) U64MAX

/-- `u8::saturating_add`. -/
def satAdd8 (a b : Nat) : Nat := min (a + b) 255

/-- `i16::abs` of a difference of two `u8` values, as used by the movement
and adjacency range checks (`(a as i16 - b as i16).abs()`). -/
def absDiff (a b : Nat) : Nat := max a b - min a b

namespace Grid

/-- `GameItem` from `contracts/pir8-game/src/lib.rs` / `programs/.../state/game.rs`. -/
inductive GameItem where
  | Points (v : Nat)
  | Grinch
  | Pudding
  | Present
  | Snowball
  | Mistletoe
  | Tree
  | Elf
  | Bauble
  | Turkey
  | Cracker
  | Bank
deriving DecidableEq, Repr

/-- `ItemAction` from the same files.  `Pubkey`s are embedded as `Nat`. -/
inductive ItemAction where
  | Steal (amount : Nat)
  | Swap
  | Gift
  | Kill
  | Choose (coordinate : String)
deriving DecidableEq, Repr

/-- `GameStatus` of the item-catalog variant. -/
inductive GameStatus where
  | Waiting
  | Active
  | Completed
  | Cancelled
deriving DecidableEq, Repr

/-- `PlayerState` (timestamps omitted: no verified property reads them). -/
structure PlayerState where
  player_key : Nat
  points : Nat
  banked_points : Nat
  has_elf : Bool
  has_bauble : Bool
  is_active : Bool
deriving DecidableEq, Repr

/-- Value used for guarded list indexing (all indexing sites are guarded
by earlier bound checks, mirroring the panicking Rust indexing that is
only reached with valid indices). -/
def dfltPlayer : PlayerState :=
  { player_key := 0, points := 0, banked_points := 0,
    has_elf := false, has_bauble := false, is_active := true }

/-- `game.players[i]` (guarded indexing). -/
def pget (ps : List PlayerState) (i : Nat) : PlayerState := ps.getD i dfltPlayer

/-- `Game` of the item-catalog variant (fees, pot, timestamps and metadata
omitted: no verified property reads them). -/
structure Game where
  status : GameStatus
  players : List PlayerState
  current_player_index : Nat
  grid : List GameItem
  chosen_coordinates : List String
deriving DecidableEq, Repr

/-- Error codes (the subset reachable from the embedded instructions) of
`PIR8Error` in `contracts/pir8-game/src/lib.rs`. -/
inductive PIR8Error where
  | GameNotActive
  | NotYourTurn
  | InvalidCoordinate
  | CoordinateTaken
  | InvalidPlayerIndex
  | TargetPlayerNotFound
  | CannotTargetSelf
  | NotEnoughPoints
  | InvalidGridSeed
deriving DecidableEq, Repr

/-- `GIFT_AMOUNT`. -/
def GIFT_AMOUNT : Nat := 1000

/-- `GRID_SIZE`. -/
def GRID_SIZE : Nat := 7

/-- `VALID_LETTERS`. -/
def VALID_LETTERS : List Char := ['A', 'B', 'C', 'D', 'E', 'F', 'G']

/-- `VALID_NUMBERS`. -/
def VALID_NUMBERS : List Char := ['1', '2', '3', '4', '5', '6', '7']

/-- `is_valid_coordinate`: the string must have exactly two characters, a
letter A–G followed by a digit 1–7.  (For byte length 2 with a non-ASCII
character the Rust code also answers `false`, via the failing
`VALID_LETTERS` membership test, so matching on the character list is
behaviour-equivalent.) -/
def is_valid_coordinate (c : String) : Bool :=
  match c.toList with
  | [a, b] => VALID_LETTERS.contains a && VALID_NUMBERS.contains b
  | _ => false

/-- Column of a coordinate letter (`coordinate_to_grid_index`, letter match). -/
def letter_col (ch : Char) : Except PIR8Error Nat :=
  match ch with
  | 'A' => .ok 0
  | 'B' => .ok 1
  | 'C' => .ok 2
  | 'D' => .ok 3
  | 'E' => .ok 4
  | 'F' => .ok 5
  | 'G' => .ok 6
  | _ => .error .InvalidCoordinate

/-- Row of a coordinate digit (`coordinate_to_grid_index`, number match). -/
def number_row (ch : Char) : Except PIR8Error Nat :=
  match ch with
  | '1' => .ok 0
  | '2' => .ok 1
  | '3' => .ok 2
  | '4' => .ok 3
  | '5' => .ok 4
  | '6' => .ok 5
  | '7' => .ok 6
  | _ => .error .InvalidCoordinate

/-- `coordinate_to_grid_index`.  The Rust code indexes `chars[0]` and
`chars[1]`; a string with fewer than two characters would panic there, and
all call sites guard with `is_valid_coordinate` first — the fallthrough
arm models that unreachable panic as the coordinate error. -/
def coordinate_to_grid_index (c : String) : Except PIR8Error Nat :=
  match c.toList with
  | l :: n :: _ =>
    match letter_col l with
    | .error e => .error e
    | .ok col =>
      match number_row n with
      | .error e => .error e
      | .ok row => .ok (row * GRID_SIZE + col)
  | _ => .error .InvalidCoordinate

/-- `ITEM_DISTRIBUTION`: pairs of (count, item code). -/
def ITEM_DISTRIBUTION : List (Nat × Nat) :=
  [(21, 200), (17, 1000), (2, 3000), (1, 5000),
   (1, 0), (1, 1), (1, 2), (1, 3), (1, 4), (1, 5), (1, 6), (1, 7), (1, 8), (1, 9), (1, 10)]

/-- The `match item_type` arms of `generate_game_grid`. -/
def item_of_code (code : Nat) : Option GameItem :=
  match code with
  | 200 => some (.Points 200)
  | 1000 => some (.Points 1000)
  | 3000 => some (.Points 3000)
  | 5000 => some (.Points 5000)
  | 0 => some .Grinch
  | 1 => some .Pudding
  | 2 => some .Present
  | 3 => some .Snowball
  | 4 => some .Mistletoe
  | 5 => some .Tree
  | 6 => some .Elf
  | 7 => some .Bauble
  | 8 => some .Turkey
  | 9 => some .Cracker
  | 10 => some .Bank
  | _ => none

/-- Linear layout phase of `generate_game_grid`: for each distribution
entry push `count` copies of its item; an unknown code is the
`InvalidGridSeed` error. -/
def expand_distribution : List (Nat × Nat) → Except PIR8Error (List GameItem)
  | [] => .ok []
  | (count, code) :: rest =>
    match item_of_code code with
    | none => .error .InvalidGridSeed
    | some it =>
      match expand_distribution rest with
      | .error e => .error e
      | .ok l => .ok (List.replicate count it ++ l)

/-- One step of the linear congruential generator:
`rng_state.wrapping_mul(1103515245).wrapping_add(12345)`. -/
def lcg_next (s : Nat) : Nat := (s * 1103515245 + 12345) % U64M

attribute [irreducible] lcg_next

/-- `Vec::swap` (guarded: all call sites use indices below the length). -/
def list_swap {α : Type} (l : List α) (i j : Nat) : List α :=
  match l.get? i, l.get? j with
  | some a, some b => (l.set i b).set j a
  | _, _ => l

/-- The shuffle loop of `generate_game_grid`:
`for i in (1..grid.len()).rev() { state = lcg(state); grid.swap(i, state % (i+1)) }`,
written as recursion on the current value of `i`. -/
def shuffle_down (state : Nat) (l : List GameItem) : Nat → List GameItem
  | 0 => l
  | k + 1 =>
    let s2 := lcg_next state
    shuffle_down s2 (list_swap l (k + 1) (s2 % (k + 2))) k

/-- `generate_game_grid`. -/
def generate_game_grid (seed : Nat) : Except PIR8Error (List GameItem) :=
  match expand_distribution ITEM_DISTRIBUTION with
  | .error e => .error e
  | .ok g0 => .ok (shuffle_down seed g0 (g0.length - 1))

attribute [irreducible] shuffle_down generate_game_grid

/-- Modelled from the spec (refinement reference for the shuffle claim):
the item multiset "laid out linearly" — 21 of 200 points, 17 of 1000, 2 of
3000, 1 of 5000, then one of each special item, in distribution order. -/
def spec_initial_items : List GameItem :=
  List.replicate 21 (.Points 200) ++ List.replicate 17 (.Points 1000) ++
  List.replicate 2 (.Points 3000) ++ [.Points 5000,
  .Grinch, .Pudding, .Present, .Snowball, .Mistletoe, .Tree,
  .Elf, .Bauble, .Turkey, .Cracker, .Bank]

/-- Modelled from the spec (refinement reference for the shuffle claim):
one Fisher–Yates step at index `i` — advance the LCG state once, draw
`j = state % (i+1)`, swap positions `i` and `j`. -/
def spec_fy_step (acc : Nat × List GameItem) (i : Nat) : Nat × List GameItem :=
  let s2 := lcg_next acc.1
  (s2, list_swap acc.2 i (s2 % (i + 1)))

/-- Modelled from the spec (refinement reference for the shuffle claim):
Fisher–Yates over the linear layout, visiting `i` from `len-1` down to 1,
advancing the LCG state once per swap and drawing `j = state % (i+1)`,
written as a left fold over the descending index list. -/
def spec_fisher_yates (seed : Nat) (l : List GameItem) : List GameItem :=
  ((List.range' 1 (l.length - 1)).reverse.foldl spec_fy_step (seed, l)).2

end Grid

namespace Pirate

/-- `MAP_SIZE` of the pirate variant. -/
def MAP_SIZE : Nat := 10

/-- `TerritoryCellType`. -/
inductive TerritoryCellType where
  | Water
  | Island
  | Port
  | Treasure
  | Storm
  | Reef
  | Whirlpool
deriving DecidableEq, Repr

/-- `TerritoryCell` (owner `Pubkey` embedded as `Nat`). -/
structure TerritoryCell where
  cell_type : TerritoryCellType
  owner : Option Nat
deriving DecidableEq, Repr

/-- Four times the squared Euclidean distance of cell `(x, y)` from the
grid centre `(4.5, 4.5)`: `(2x-9)^2 + (2y-9)^2`.  The Rust code compares
the `f32` value `sqrt((x-4.5)^2+(y-4.5)^2)` against `3.0` and `5.0`
(`1.5*scale` and `2.5*scale` with `scale = 2.0`); all those squares and
sums are exactly representable in `f32` and `sqrt` is correctly rounded
and monotone, and `(2x-9)^2+(2y-9)^2`, a sum of two odd squares, is 2 mod
8 and so never equals `36` or `100` — hence `distance < 3.0` is exactly
`dist4_sq < 36` and `distance < 5.0` is exactly `dist4_sq < 100`. -/
def dist4_sq (x y : Nat) : Int :=
  ((2 * (x : Int)) - 9) ^ 2 + ((2 * (y : Int)) - 9) ^ 2

/-- Per-cell body of `generate_strategic_map`
(`programs/pir8-game/src/state/map.rs`): a wrapped per-cell pseudo-random
value in 0..100, bucketed by the cell's distance band. -/
def cell_type_at (seed x y : Nat) : TerritoryCellType :=
  let cell_seed := (seed + (x * MAP_SIZE + y)) % U64M
  let rand_val := ((cell_seed * 1103515245 + 12345) % U64M) % 100
  if dist4_sq x y < 36 then
    if rand_val < 40 then .Treasure
    else if rand_val < 70 then .Port
    else .Water
  else if dist4_sq x y < 100 then
    if rand_val < 20 then .Island
    else if rand_val < 35 then .Port
    else .Water
  else
    if rand_val < 10 then .Storm
    else if rand_val < 15 then .Reef
    else .Water

/-- `generate_strategic_map`: cells pushed for `x` in 0..10, then `y` in
0..10, i.e. flat index `x * MAP_SIZE + y`, every owner `None`. -/
def generate_strategic_map (seed : Nat) : List TerritoryCell :=
  (List.range (MAP_SIZE * MAP_SIZE)).map
    (fun idx => { cell_type := cell_type_at seed (idx / MAP_SIZE) (idx % MAP_SIZE),
                  owner := none })

/-- `GameStatus` of the pirate variant. -/
inductive GameStatus where
  | WaitingForPlayers
  | Active
  | Completed
deriving DecidableEq, Repr

/-- `WeatherType`. -/
inductive WeatherType where
  | Calm
  | TradeWinds
  | Storm
  | Fog
deriving DecidableEq, Repr

/-- `Resources`. -/
structure Resources where
  gold : Nat
  crew : Nat
  cannons : Nat
  supplies : Nat
deriving DecidableEq, Repr

/-- `ShipData` (the `ship_type` and `max_health` fields are not read by
any embedded instruction and are omitted). -/
structure ShipData where
  id : String
  health : Nat
  attack : Nat
  defense : Nat
  speed : Nat
  position_x : Nat
  position_y : Nat
  last_action_turn : Nat
deriving DecidableEq, Repr

/-- `PlayerData` (scan fields omitted: no verified property reads them). -/
structure PlayerData where
  pubkey : Nat
  resources : Resources
  ships : List ShipData
  controlled_territories : List String
  is_active : Bool
  speed_bonus_accumulated : Nat
  average_decision_time_ms : Nat
  total_moves : Nat
deriving DecidableEq, Repr

/-- Value used for guarded list indexing (see `Grid.dfltPlayer`). -/
def dfltPlayerData : PlayerData :=
  { pubkey := 0, resources := { gold := 0, crew := 0, cannons := 0, supplies := 0 },
    ships := [], controlled_territories := [], is_active := false,
    speed_bonus_accumulated := 0, average_decision_time_ms := 0, total_moves := 0 }

/-- `game.players[i]` (guarded indexing). -/
def pgetP (ps : List PlayerData) (i : Nat) : PlayerData := ps.getD i dfltPlayerData

/-- `PirateGame` (ids, fees, timestamps and bump omitted; the fixed
4-slot player array is embedded as the list of its slots, with
`player_count` giving the number of occupied slots, as in the source). -/
structure PirateGame where
  status : GameStatus
  players : List PlayerData
  player_count : Nat
  current_player_index : Nat
  territory_map : List TerritoryCell
  turn_number : Nat
  completed_at : Option Nat
  winner : Option Nat
  weather_type : WeatherType
  weather_duration : Nat
deriving DecidableEq, Repr

/-- `GameError` (the subset reachable from the embedded instructions). -/
inductive GameError where
  | GameNotActive
  | NotPlayerTurn
  | ShipNotFound
  | InvalidCoordinate
  | PositionOccupied
  | ShipsNotInRange
deriving DecidableEq, Repr

/-- `PirateGame::get_current_player`. -/
def get_current_player (g : PirateGame) : Option PlayerData :=
  if g.player_count ≤ g.current_player_index then none
  else some (pgetP g.players g.current_player_index)

/-- Index form of `PirateGame::get_player_mut`
(`find(|p| p.pubkey == *key && p.is_active)`), so the caller can write
back through `List.set`. -/
def find_active_index (key : Nat) : List PlayerData → Option Nat
  | [] => none
  | p :: ps =>
    if p.pubkey = key && p.is_active then some 0
    else (find_active_index key ps).map (· + 1)

/-- Body of the turn-skip loop of `PirateGame::advance_turn`, with the
remaining attempt budget `n - attempts` as structural fuel (the loop
guard `attempts < n` makes the two formulations coincide, see
`skip_inactive`). -/
def skip_inactive_go (players : List PlayerData) (n : Nat) :
    Nat → Nat → Nat → Nat
  | 0, next, _ => next
  | f + 1, next, attempts =>
    if attempts < n ∧ (pgetP players next).is_active = false then
      skip_inactive_go players n f ((next + 1) % n) (attempts + 1)
    else next

/-- The turn-skip loop of `PirateGame::advance_turn`:
`while !players[next].is_active && attempts < player_count { next = (next+1) % n; attempts += 1 }`.
The `attempts < n` guard bounds the loop by at most `player_count` skip
attempts, so running it with fuel `n - attempts` is exact. -/
def skip_inactive (players : List PlayerData) (n next attempts : Nat) : Nat :=
  skip_inactive_go players n (n - attempts) next attempts

/-- Duration table of `update_weather`. -/
def weather_duration_of (w : WeatherType) : Nat :=
  match w with
  | .Calm => 2
  | .TradeWinds => 3
  | .Storm => 2
  | .Fog => 3

/-- `generate_random_weather`: `(turn_number + clock as u32) % 4` (the
clock value is passed in as `now`; the `u32` addition wraps). -/
def generate_random_weather (g : PirateGame) (now : Nat) : WeatherType :=
  match ((g.turn_number + now) % U32M) % 4 with
  | 0 => .Calm
  | 1 => .TradeWinds
  | 2 => .Storm
  | _ => .Fog

/-- `PirateGame::update_weather`. -/
def update_weather (g : PirateGame) (now : Nat) : PirateGame :=
  let d1 := if 0 < g.weather_duration then g.weather_duration - 1 else g.weather_duration
  if d1 = 0 then
    let w := generate_random_weather g now
    { g with weather_type := w, weather_duration := weather_duration_of w }
  else { g with weather_duration := d1 }

/-- `PirateGame::advance_turn`.  With `player_count = 0` the Rust code
panics on `% 0`; every instruction reaches this only on games with
players, and the theorems all assume `0 < player_count`. -/
def pirate_advance_turn (g : PirateGame) (now : Nat) : PirateGame :=
  if g.player_count = 0 then g
  else
    let start := (g.current_player_index + 1) % g.player_count
    let next := skip_inactive g.players g.player_count start 0
    let g1 := { g with current_player_index := next }
    if next = 0 then
      update_weather { g1 with turn_number := (g1.turn_number + 1) % U32M } now
    else g1

/-- Update the first element satisfying the predicate (the effect of
mutating through `iter_mut().find(...)`). -/
def update_first {α : Type} (p : α → Bool) (f : α → α) : List α → List α
  | [] => []
  | x :: xs => if p x then f x :: xs else x :: update_first p f xs

/-- `calculate_speed_bonus`. -/
def calculate_speed_bonus (t : Nat) : Nat :=
  if t ≤ 5000 then 100
  else if t ≤ 10000 then 50
  else if t ≤ 15000 then 25
  else 0

/-- `update_average_decision_time`. -/
def update_average_decision_time (p : PlayerData) (t : Nat) : PlayerData :=
  let p1 :=
    if p.total_moves = 0 then { p with average_decision_time_ms := t }
    else
      let total_time := satMul64 p.average_decision_time_ms p.total_moves
      let combined := satAdd64 total_time t
      let move_count := satAdd64 p.total_moves 1
      { p with average_decision_time_ms := combined / move_count }
  { p1 with total_moves := satAdd8 p1.total_moves 1 }

/-- `move_ship` (`programs/pir8-game/src/instructions/gameplay.rs`). -/
def move_ship (g : PirateGame) (caller : Nat) (ship_id : String) (to_x to_y : Nat)
    (decision_time_ms : Option Nat) (now : Nat) : Except GameError PirateGame :=
  if g.status ≠ GameStatus.Active then .error .GameNotActive else
  match get_current_player g with
  | none => .error .NotPlayerTurn
  | some cp =>
  if cp.pubkey ≠ caller then .error .NotPlayerTurn else
  if ¬(to_x < MAP_SIZE ∧ to_y < MAP_SIZE) then .error .InvalidCoordinate else
  match g.players.find? (fun p => p.pubkey == caller) with
  | none => .error .NotPlayerTurn
  | some p0 =>
  match p0.ships.find? (fun s => s.id == ship_id) with
  | none => .error .ShipNotFound
  | some sh =>
  let distance := absDiff to_x sh.position_x + absDiff to_y sh.position_y
  if ¬(distance ≤ sh.speed) then .error .InvalidCoordinate else
  if g.players.any (fun p => p.ships.any
      (fun s => s.position_x == to_x && s.position_y == to_y && s.id ≠ ship_id)) then
    .error .PositionOccupied
  else
  let current_turn := g.turn_number
  match find_active_index caller g.players with
  | none => .error .NotPlayerTurn
  | some pi =>
  match (pgetP g.players pi).ships.find? (fun s => s.id == ship_id) with
  | none => .error .ShipNotFound
  | some _ =>
  let setPos := fun (s : ShipData) =>
    { s with position_x := to_x, position_y := to_y, last_action_turn := current_turn }
  let moveShipIn := fun (p : PlayerData) =>
    { p with ships := update_first (fun s => s.id == ship_id) setPos p.ships }
  let applyTiming := fun (p : PlayerData) =>
    match decision_time_ms with
    | none => p
    | some t =>
      let bonus := calculate_speed_bonus t
      update_average_decision_time
        { p with speed_bonus_accumulated := (p.speed_bonus_accumulated + bonus) % U64M } t
  let players2 := g.players.set pi (applyTiming (moveShipIn (pgetP g.players pi)))
  .ok (pirate_advance_turn { g with players := players2 } now)

/-- The attacker-lookup loop of `attack_ship`: position and attack of the
caller's ship with the given id (initial values `(0,0)` and `0`). -/
def find_attacker (players : List PlayerData) (caller : Nat) (aid : String) :
    (Nat × Nat) × Nat :=
  players.foldl
    (fun acc p =>
      if p.pubkey == caller then
        match p.ships.find? (fun s => s.id == aid) with
        | some s => ((s.position_x, s.position_y), s.attack)
        | none => acc
      else acc)
    ((0, 0), 0)

/-- The per-ship-list body of the target loop of `attack_ship`: damage the
first ship with the target id (adjacency is `require!`d there, modelled
as the error); returns the updated list, whether a target was found,
whether it was destroyed, and the damage dealt. -/
def damage_ships (tid : String) (apos : Nat × Nat) (aatk : Nat) :
    List ShipData → Except GameError (List ShipData × Bool × Bool × Nat)
  | [] => .ok ([], false, false, 0)
  | s :: rest =>
    if s.id == tid then
      let distance := absDiff s.position_x apos.1 + absDiff s.position_y apos.2
      if distance ≤ 1 then
        let dmg := max (aatk - s.defense) 1
        if s.health ≤ dmg then .ok ({ s with health := 0 } :: rest, true, true, dmg)
        else .ok ({ s with health := s.health - dmg } :: rest, true, false, dmg)
      else .error .ShipsNotInRange
    else
      match damage_ships tid apos aatk rest with
      | .error e => .error e
      | .ok (rest2, f, d, dm) => .ok (s :: rest2, f, d, dm)

/-- The target loop of `attack_ship` over all players (the caller's own
players are skipped); `target_found`/`target_destroyed` accumulate with
or, `damage_dealt` keeps the value from the last player that found a
target. -/
def attack_pass (caller : Nat) (tid : String) (apos : Nat × Nat) (aatk : Nat) :
    List PlayerData → Except GameError (List PlayerData × Bool × Bool × Nat)
  | [] => .ok ([], false, false, 0)
  | p :: rest =>
    if p.pubkey == caller then
      match attack_pass caller tid apos aatk rest with
      | .error e => .error e
      | .ok (rest2, f, d, dm) => .ok (p :: rest2, f, d, dm)
    else
      match damage_ships tid apos aatk p.ships with
      | .error e => .error e
      | .ok (ships2, f, d, dm) =>
        match attack_pass caller tid apos aatk rest with
        | .error e => .error e
        | .ok (rest2, f2, d2, dm2) =>
          .ok ({ p with ships := ships2 } :: rest2, f || f2, d || d2,
               if f2 then dm2 else dm)

/-- `attack_ship` (`programs/pir8-game/src/instructions/gameplay.rs`). -/
def attack_ship (g : PirateGame) (caller : Nat) (attacker_ship_id target_ship_id : String)
    (now : Nat) : Except GameError PirateGame :=
  if g.status ≠ GameStatus.Active then .error .GameNotActive else
  match get_current_player g with
  | none => .error .NotPlayerTurn
  | some cp =>
  if cp.pubkey ≠ caller then .error .NotPlayerTurn else
  let fa := find_attacker g.players caller attacker_ship_id
  if ¬(0 < fa.2) then .error .ShipNotFound else
  match attack_pass caller target_ship_id fa.1 fa.2 g.players with
  | .error e => .error e
  | .ok (ps, target_found, target_destroyed, _) =>
  if target_found = false then .error .ShipNotFound else
  let ps2 := if target_destroyed then
      ps.map (fun p => { p with ships := p.ships.filter (fun s => ¬(s.id == target_ship_id)) })
    else ps
  .ok (pirate_advance_turn { g with players := ps2 } now)

/-- The ship-position lookup loop of `claim_territory`. -/
def find_ship_pos (players : List PlayerData) (caller : Nat) (sid : String) :
    Option (Nat × Nat) :=
  players.foldl
    (fun acc p =>
      if p.pubkey == caller then
        match p.ships.find? (fun s => s.id == sid) with
        | some s => some (s.position_x, s.position_y)
        | none => acc
      else acc)
    none

/-- Decimal digit character. -/
def digit_char (d : Nat) : Char :=
  match d with
  | 0 => '0'
  | 1 => '1'
  | 2 => '2'
  | 3 => '3'
  | 4 => '4'
  | 5 => '5'
  | 6 => '6'
  | 7 => '7'
  | 8 => '8'
  | _ => '9'

/-- Decimal digits of `n`, most significant first (fuel-bounded
structural recursion so that it reduces definitionally; `u8` values need
at most three digits). -/
def nat_repr_core (fuel n : Nat) : List Char :=
  match fuel with
  | 0 => []
  | f + 1 =>
    if n < 10 then [digit_char n]
    else nat_repr_core f (n / 10) ++ [digit_char (n % 10)]

/-- Decimal representation of a `u8` value. -/
def nat_repr (n : Nat) : String := ⟨nat_repr_core 3 n⟩

/-- `format!("{},{}", x, y)`. -/
def coord_string (x y : Nat) : String :=
  nat_repr x ++ "," ++ nat_repr y

/-- The claimability match of `claim_territory`. -/
def claimable (t : TerritoryCellType) : Bool :=
  match t with
  | .Island => true
  | .Port => true
  | .Treasure => true
  | _ => false

/-- `claim_territory` (`programs/pir8-game/src/instructions/gameplay.rs`).
Note that the cell's current owner is never inspected: ownership is
overwritten unconditionally once the cell type is claimable. -/
def claim_territory (g : PirateGame) (caller : Nat) (ship_id : String) (now : Nat) :
    Except GameError PirateGame :=
  if g.status ≠ GameStatus.Active then .error .GameNotActive else
  match get_current_player g with
  | none => .error .NotPlayerTurn
  | some cp =>
  if cp.pubkey ≠ caller then .error .NotPlayerTurn else
  match find_ship_pos g.players caller ship_id with
  | none => .error .ShipNotFound
  | some xy =>
  match g.territory_map.get? (xy.1 * MAP_SIZE + xy.2) with
  | none => .error .InvalidCoordinate
  | some cell =>
  if claimable cell.cell_type = false then .error .InvalidCoordinate else
  let map2 := g.territory_map.set (xy.1 * MAP_SIZE + xy.2) { cell with owner := some caller }
  let coord := coord_string xy.1 xy.2
  match find_active_index caller g.players with
  | none => .error .NotPlayerTurn
  | some pi =>
  let p := pgetP g.players pi
  let p2 := if p.controlled_territories.contains coord then p
            else { p with controlled_territories := p.controlled_territories ++ [coord] }
  .ok (pirate_advance_turn { g with territory_map := map2, players := g.players.set pi p2 } now)

/-- `resource_value` as computed in `check_and_complete_game`:
`gold + crew*10 + cannons*20 + supplies*5` in wrapping `u32`. -/
def resource_value (p : PlayerData) : Nat :=
  (p.resources.gold + p.resources.crew * 10 + p.resources.cannons * 20
    + p.resources.supplies * 5) % U32M

/-- The weighted end-of-game score of `check_and_complete_game`:
`active_ships*100 + total_health*2 + territories*150 + resource_value`,
all in wrapping `u32` arithmetic (a single final reduction mod `2^32` is
equivalent because the expression is built from `+` and `*` only). -/
def weighted_score (p : PlayerData) : Nat :=
  ((p.ships.filter (fun s => 0 < s.health)).length * 100
    + (p.ships.map (fun s => s.health)).sum * 2
    + p.controlled_territories.length * 150
    + p.resources.gold + p.resources.crew * 10 + p.resources.cannons * 20
    + p.resources.supplies * 5) % U32M

/-- The `scored_players` list of `check_and_complete_game`: one entry per
active player, in player-list order.  The source tuple also carries the
ship count, health and territory count, but those fields are read neither
by the sort comparator nor by the winner selection, so only the pubkey
and the weighted score are kept. -/
def scored_players (g : PirateGame) : List (Nat × Nat) :=
  (g.players.filter (fun p => p.is_active)).map (fun p => (p.pubkey, weighted_score p))

/-- Insertion step of a stable descending sort by key: the new element is
placed before the first element whose key is ≤ its own, so among equal
keys earlier elements stay first. -/
def insert_desc {α : Type} (key : α → Nat) (x : α) : List α → List α
  | [] => [x]
  | y :: ys => if key y ≤ key x then x :: y :: ys else y :: insert_desc key x ys

/-- Stable descending sort by key, modelling
`sort_by(|a, b| b.score.cmp(&a.score))` (Rust's `sort_by` is stable, and
a stable sort under a total preorder has a unique result, so this
insertion sort computes the same list). -/
def sort_desc {α : Type} (key : α → Nat) : List α → List α
  | [] => []
  | x :: xs => insert_desc key x (sort_desc key xs)

/-- First element attaining the maximum key (specification-side
description of the head of a stable descending sort). -/
def first_max_by {α : Type} (key : α → Nat) : List α → Option α
  | [] => none
  | a :: l =>
    match first_max_by key l with
    | none => some a
    | some b => if key a < key b then some b else some a

/-- `total_fleet_power` (wrapping `u32` sum of all ship healths). -/
def total_fleet_power (g : PirateGame) : Nat :=
  ((g.players.map (fun p => (p.ships.map (fun s => s.health)).sum)).sum) % U32M

/-- A single player's fleet power (wrapping `u32` sum). -/
def player_fleet_power (p : PlayerData) : Nat :=
  ((p.ships.map (fun s => s.health)).sum) % U32M

/-- Count of valuable (Port/Island/Treasure) cells on the map. -/
def valuable_territories (g : PirateGame) : Nat :=
  (g.territory_map.filter
    (fun c => c.cell_type == TerritoryCellType.Port
      || c.cell_type == TerritoryCellType.Island
      || c.cell_type == TerritoryCellType.Treasure)).length

/-- The victory-condition loop of `check_and_complete_game`: the first
active player (in list order) meeting fleet dominance, territory control
or the economic threshold, conditions checked in that order. -/
def victory_check (g : PirateGame) : Option (Nat × String) :=
  g.players.findSome? (fun p =>
    if p.is_active = false then none
    else if 0 < total_fleet_power g
        ∧ (total_fleet_power g * 65) % U32M ≤ (player_fleet_power p * 100) % U32M then
      some (p.pubkey, ("Fleet Dominance"))
    else if 0 < valuable_territories g
        ∧ (valuable_territories g * 50) % U64M
            ≤ (p.controlled_territories.length * 100) % U64M then
      some (p.pubkey, ("Territory Control"))
    else if 10000 ≤ resource_value p then some (p.pubkey, ("Economic Victory"))
    else none)

/-- `MAX_TURNS` of `check_and_complete_game`. -/
def MAX_TURNS : Nat := 50

/-- `check_and_complete_game`
(`programs/pir8-game/src/instructions/gameplay.rs`). -/
def check_and_complete_game (g : PirateGame) (now : Nat) : Except GameError PirateGame :=
  if g.status ≠ GameStatus.Active then .error .GameNotActive else
  if MAX_TURNS ≤ g.turn_number then
    match (sort_desc (fun z => z.2) (scored_players g)).head? with
    | some ws =>
      .ok { g with status := .Completed, winner := some ws.1, completed_at := some now }
    | none => .ok g
  else
    match victory_check g with
    | some wv =>
      .ok { g with status := .Completed, winner := some wv.1, completed_at := some now }
    | none => .ok g

end Pirate

namespace Grid

/-- `Game::advance_turn` of the item-catalog variant: plain increment
modulo the player count, with no inactive-player skipping.  (No
instruction of this variant ever clears `is_active`, so every reachable
player is active.)  With an empty player list the Rust code panics on
`% 0`; the theorems assume a non-empty list. -/
def grid_advance_turn (g : Game) : Game :=
  { g with current_player_index := (g.current_player_index + 1) % g.players.length }

/-- `Game::is_coordinate_available`. -/
def is_coordinate_available (g : Game) (c : String) : Bool :=
  !(g.chosen_coordinates.any (fun x => x == c))

/-- `Game::get_player_index` (`iter().position(|p| p.player_key == *key)`). -/
def find_index_key (key : Nat) : List PlayerState → Option Nat
  | [] => none
  | p :: ps =>
    if p.player_key = key then some 0
    else (find_index_key key ps).map (· + 1)

/-- `Game::calculate_final_scores`: `points + banked_points` per player
(wrapping `u64` addition). -/
def calculate_final_scores (g : Game) : List Nat :=
  g.players.map (fun p => (p.points + p.banked_points) % U64M)

/-- `Iterator::max_by_key` over an enumerated list: index and value of
the maximal element, the **last** one in case of ties (as documented for
`max_by_key`). -/
def max_by_key_last : List Nat → Option (Nat × Nat)
  | [] => none
  | a :: l =>
    match max_by_key_last l with
    | none => some (0, a)
    | some jt => if a ≤ jt.2 then some (jt.1 + 1, jt.2) else some (0, a)

/-- `Game::determine_winner`. -/
def determine_winner (g : Game) : Option Nat :=
  (max_by_key_last (calculate_final_scores g)).map (fun jt => jt.1)

/-- The point-transfer pattern shared by the normal and the reflected
`Steal` branch of `execute_item_effect`: move `min amount available`
points from `fromI` to `toI` (saturating subtraction and addition). -/
def steal_transfer (ps : List PlayerState) (fromI toI amount : Nat) : List PlayerState :=
  let avail := (pget ps fromI).points
  let actual := min amount avail
  let ps1 := ps.set fromI { pget ps fromI with points := avail - actual }
  ps1.set toI { pget ps1 toI with points := satAdd64 (pget ps1 toI).points actual }

/-- The point-reset pattern of the `Kill` branches: set player `i`'s
points to 0. -/
def kill_reset (ps : List PlayerState) (i : Nat) : List PlayerState :=
  ps.set i { pget ps i with points := 0 }

/-- `execute_item_effect`
(`programs/pir8-game/src/instructions/execute_item_effect.rs`; the
account constraints of the `ExecuteItemEffect` context — active game,
caller is the current player — are the two leading checks).  The event
strings are omitted. -/
def execute_item_effect (g : Game) (caller : Nat) (action : ItemAction)
    (target : Option Nat) : Except PIR8Error Game :=
  if g.status ≠ GameStatus.Active then .error .GameNotActive else
  match g.players.get? g.current_player_index with
  | none => .error .InvalidPlayerIndex
  | some cp =>
  if cp.player_key ≠ caller then .error .NotYourTurn else
  let ci := g.current_player_index
  let tiR : Except PIR8Error Nat :=
    match target with
    | none => .ok 0
    | some t =>
      if t = caller then .error .CannotTargetSelf
      else
        match find_index_key t g.players with
        | none => .error .TargetPlayerNotFound
        | some i => .ok i
  match tiR with
  | .error e => .error e
  | .ok ti =>
  match action with
  | .Steal amount =>
    if target.isNone then .error .TargetPlayerNotFound else
    if (pget g.players ti).has_elf then
      .ok (grid_advance_turn
        { g with players := g.players.set ti { pget g.players ti with has_elf := false } })
    else if (pget g.players ti).has_bauble then
      let psb := g.players.set ti { pget g.players ti with has_bauble := false }
      .ok (grid_advance_turn { g with players := steal_transfer psb ci ti amount })
    else
      .ok (grid_advance_turn { g with players := steal_transfer g.players ti ci amount })
  | .Swap =>
    if target.isNone then .error .TargetPlayerNotFound else
    if (pget g.players ti).has_elf then
      .ok (grid_advance_turn
        { g with players := g.players.set ti { pget g.players ti with has_elf := false } })
    else if (pget g.players ti).has_bauble then
      .ok (grid_advance_turn
        { g with players := g.players.set ti { pget g.players ti with has_bauble := false } })
    else
      let current_points := (pget g.players ci).points
      let target_points := (pget g.players ti).points
      let ps1 := g.players.set ci { pget g.players ci with points := target_points }
      .ok (grid_advance_turn
        { g with players := ps1.set ti { pget ps1 ti with points := current_points } })
  | .Gift =>
    if target.isNone then .error .TargetPlayerNotFound else
    if (pget g.players ci).points < GIFT_AMOUNT then .error .NotEnoughPoints else
    let ps1 := g.players.set ci
      { pget g.players ci with points := (pget g.players ci).points - GIFT_AMOUNT }
    let ps2 := ps1.set ti { pget ps1 ti with points := satAdd64 (pget ps1 ti).points GIFT_AMOUNT }
    .ok (grid_advance_turn { g with players := ps2 })
  | .Kill =>
    if target.isNone then .error .TargetPlayerNotFound else
    if (pget g.players ti).has_elf then
      .ok (grid_advance_turn
        { g with players := g.players.set ti { pget g.players ti with has_elf := false } })
    else if (pget g.players ti).has_bauble then
      let psb := g.players.set ti { pget g.players ti with has_bauble := false }
      .ok (grid_advance_turn { g with players := kill_reset psb ci })
    else
      .ok (grid_advance_turn { g with players := kill_reset g.players ti })
  | .Choose c =>
    if is_valid_coordinate c = false then .error .InvalidCoordinate else
    if is_coordinate_available g c = false then .error .CoordinateTaken else
    .ok (grid_advance_turn g)

/-- Resulting state of `execute_item_effect`: an error aborts the
transaction, leaving the state unchanged. -/
def eie_state (g : Game) (caller : Nat) (action : ItemAction) (target : Option Nat) : Game :=
  match execute_item_effect g caller action target with
  | .ok g2 => g2
  | .error _ => g

/-- Total of the (unbanked) `points` fields over a player list. -/
def sum_points (ps : List PlayerState) : Nat := (ps.map (fun p => p.points)).sum

end Grid

/-! ### Shared list lemmas -/

namespace Grid

theorem pget_nil (i : Nat) : pget [] i = dfltPlayer := by
  cases i <;> rfl

theorem pget_cons_succ (p : PlayerState) (ps : List PlayerState) (i : Nat) :
    pget (p :: ps) (i + 1) = pget ps i := rfl

theorem pget_set_self (ps : List PlayerState) (i : Nat) (q : PlayerState)
    (h : i < ps.length) : pget (ps.set i q) i = q := by
  induction ps generalizing i with
  | nil => simp at h
  | cons a as ih =>
    cases i with
    | zero => rfl
    | succ n =>
      simp only [List.set, pget_cons_succ]
      exact ih n (by simpa using h)

theorem pget_set_ne (ps : List PlayerState) (i j : Nat) (q : PlayerState)
    (h : i ≠ j) : pget (ps.set i q) j = pget ps j := by
  induction ps generalizing i j with
  | nil => cases i <;> rfl
  | cons a as ih =>
    cases i with
    | zero =>
      cases j with
      | zero => exact absurd rfl h
      | succ m => rfl
    | succ n =>
      cases j with
      | zero => rfl
      | succ m =>
        simp only [List.set, pget_cons_succ]
        exact ih n m (by omega)

theorem sum_points_cons (p : PlayerState) (ps : List PlayerState) :
    sum_points (p :: ps) = p.points + sum_points ps := by
  simp [sum_points]

theorem sum_points_set (ps : List PlayerState) (i : Nat) (q : PlayerState)
    (h : i < ps.length) :
    sum_points (ps.set i q) + (pget ps i).points = sum_points ps + q.points := by
  induction ps generalizing i with
  | nil => simp at h
  | cons a as ih =>
    cases i with
    | zero => simp [sum_points_cons, pget]; omega
    | succ n =>
      simp only [List.set, sum_points_cons, pget_cons_succ]
      have := ih n (by simpa using h)
      omega

theorem points_le_sum (ps : List PlayerState) (i : Nat) (h : i < ps.length) :
    (pget ps i).points ≤ sum_points ps := by
  induction ps generalizing i with
  | nil => simp at h
  | cons a as ih =>
    cases i with
    | zero => simp [sum_points_cons, pget]
    | succ n =>
      have := ih n (by simpa using h)
      simp only [pget_cons_succ, sum_points_cons]
      omega

theorem pget_cons_zero (p : PlayerState) (ps : List PlayerState) :
    pget (p :: ps) 0 = p := rfl

theorem points_two_le_sum (ps : List PlayerState) (i j : Nat)
    (hi : i < ps.length) (hj : j < ps.length) (hij : i ≠ j) :
    (pget ps i).points + (pget ps j).points ≤ sum_points ps := by
  induction ps generalizing i j with
  | nil => simp at hi
  | cons a as ih =>
    cases i with
    | zero =>
      cases j with
      | zero => exact absurd rfl hij
      | succ m =>
        have := points_le_sum as m (by simpa using hj)
        rw [pget_cons_zero, pget_cons_succ, sum_points_cons]
        omega
    | succ n =>
      cases j with
      | zero =>
        have := points_le_sum as n (by simpa using hi)
        rw [pget_cons_zero, pget_cons_succ, sum_points_cons]
        omega
      | succ m =>
        have := ih n m (by simpa using hi) (by simpa using hj) (by omega)
        rw [pget_cons_succ, pget_cons_succ, sum_points_cons]
        omega

theorem find_index_key_spec (k : Nat) (ps : List PlayerState) (i : Nat)
    (h : find_index_key k ps = some i) :
    i < ps.length ∧ (pget ps i).player_key = k := by
  induction ps generalizing i with
  | nil => simp [find_index_key] at h
  | cons a as ih =>
    by_cases hk : a.player_key = k
    · simp [find_index_key, hk] at h
      subst h
      simpa [pget] using hk
    · simp [find_index_key, hk] at h
      obtain ⟨n, hn, rfl⟩ := h
      have := ih n hn
      simp only [List.length_cons, pget_cons_succ]
      omega

theorem get?_pget (ps : List PlayerState) (i : Nat) (cp : PlayerState)
    (h : ps.get? i = some cp) : pget ps i = cp ∧ i < ps.length := by
  induction ps generalizing i with
  | nil => simp at h
  | cons a as ih =>
    cases i with
    | zero =>
      simp only [List.get?] at h
      cases h
      exact ⟨rfl, by simp⟩
    | succ n =>
      have := ih n (by simpa using h)
      exact ⟨this.1, by simpa using this.2⟩

end Grid

/-! ### Grid generation: determinism, shuffle refinement, index bounds -/

namespace Grid

theorem list_swap_length {α : Type} (l : List α) (i j : Nat) :
    (list_swap l i j).length = l.length := by
  unfold list_swap
  cases h1 : l.get? i <;> cases h2 : l.get? j <;> simp

theorem shuffle_down_length (state : Nat) (l : List GameItem) (k : Nat) :
    (shuffle_down state l k).length = l.length := by
  induction k generalizing state l with
  | zero => simp [shuffle_down]
  | succ n ih => simp [shuffle_down, ih, list_swap_length]

theorem expand_distribution_eq :
    expand_distribution ITEM_DISTRIBUTION = .ok spec_initial_items := rfl

theorem spec_initial_items_length : spec_initial_items.length = 52 := rfl

theorem generate_game_grid_ok (s : Nat) :
    generate_game_grid s
      = .ok (shuffle_down s spec_initial_items (spec_initial_items.length - 1)) := by
  unfold generate_game_grid
  rw [expand_distribution_eq]

theorem shuffle_down_fold (k : Nat) (state : Nat) (l : List GameItem) :
    ((List.range' 1 k).reverse.foldl spec_fy_step (state, l)).2
      = shuffle_down state l k := by
  induction k generalizing state l with
  | zero => simp [shuffle_down]
  | succ n ih =>
    have hr : (List.range' 1 (n + 1)).reverse = (n + 1) :: (List.range' 1 n).reverse := by
      rw [List.range'_concat]
      simp [Nat.add_comm]
    rw [hr, List.foldl_cons]
    have hstep : spec_fy_step (state, l) (n + 1)
        = (lcg_next state, list_swap l (n + 1) (lcg_next state % (n + 2))) := rfl
    rw [hstep, ih]
    simp [shuffle_down, lcg_next]

theorem letter_col_lt (ch : Char) (h : ch ∈ VALID_LETTERS) :
    ∃ k, letter_col ch = .ok k ∧ k < 7 := by
  have h2 : ch = 'A' ∨ ch = 'B' ∨ ch = 'C' ∨ ch = 'D' ∨ ch = 'E' ∨ ch = 'F' ∨ ch = 'G' := by
    simpa [VALID_LETTERS] using h
  rcases h2 with h2 | h2 | h2 | h2 | h2 | h2 | h2 <;> subst h2 <;>
    exact ⟨_, rfl, by decide⟩

theorem number_row_lt (ch : Char) (h : ch ∈ VALID_NUMBERS) :
    ∃ k, number_row ch = .ok k ∧ k < 7 := by
  have h2 : ch = '1' ∨ ch = '2' ∨ ch = '3' ∨ ch = '4' ∨ ch = '5' ∨ ch = '6' ∨ ch = '7' := by
    simpa [VALID_NUMBERS] using h
  rcases h2 with h2 | h2 | h2 | h2 | h2 | h2 | h2 <;> subst h2 <;>
    exact ⟨_, rfl, by decide⟩

end Grid

/-- Claim C2: grid and map generation are deterministic pure functions of
the seed.  `Grid.generate_game_grid` and `Pirate.generate_strategic_map`
are embedded as functions whose only input is the seed — the embedding is
possible precisely because the Rust bodies read no clock and no other
hidden input — so two calls on the same seed give identical results. -/
theorem C2_generation_deterministic (s : Nat) :
    Grid.generate_game_grid s = Grid.generate_game_grid s ∧
    Pirate.generate_strategic_map s = Pirate.generate_strategic_map s :=
  ⟨rfl, rfl⟩

/-- Claim C6: the item-grid shuffle is exactly the Fisher–Yates variant
the spec fixes — starting from the linear layout of the distribution
table, visiting `i` from `len-1` down to `1`, advancing the LCG state
once per swap (`state = state * 1103515245 + 12345`, wrapping mod `2^64`)
and swapping position `i` with `j = state % (i+1)`.  The right-hand side
is the spec-side fold (`Grid.spec_fisher_yates`) over the spec-side
linear layout (`Grid.spec_initial_items`). -/
theorem C6_shuffle_matches_spec (seed : Nat) :
    Grid.generate_game_grid seed =
      .ok (Grid.spec_fisher_yates seed Grid.spec_initial_items) := by
  rw [Grid.generate_game_grid_ok]
  unfold Grid.spec_fisher_yates
  rw [Grid.shuffle_down_fold]

/-- Claim C10: every coordinate accepted by `is_valid_coordinate` (letter
A–G then digit 1–7) is mapped by `coordinate_to_grid_index` to an index
below 49, which is in bounds for the generated grid (whose length is 52),
so the `game.grid[index]` lookup in `make_move` cannot go out of
bounds. -/
theorem C10_coordinate_index_in_bounds (c : String)
    (h : Grid.is_valid_coordinate c = true) :
    ∃ i, Grid.coordinate_to_grid_index c = .ok i ∧ i < 49 ∧
      ∀ s gr, Grid.generate_game_grid s = .ok gr → i < gr.length := by
  rcases hc : c.data with _ | ⟨a, _ | ⟨b, _ | ⟨d, rest⟩⟩⟩
  · simp [Grid.is_valid_coordinate, String.toList, hc] at h
  · simp [Grid.is_valid_coordinate, String.toList, hc] at h
  · simp only [Grid.is_valid_coordinate, String.toList, hc, Bool.and_eq_true] at h
    obtain ⟨col, hcol, hcol7⟩ := Grid.letter_col_lt a (by simpa using h.1)
    obtain ⟨row, hrow, hrow7⟩ := Grid.number_row_lt b (by simpa using h.2)
    refine ⟨row * Grid.GRID_SIZE + col, ?_, ?_, ?_⟩
    · unfold Grid.coordinate_to_grid_index String.toList
      rw [hc]
      simp [hcol, hrow]
    · unfold Grid.GRID_SIZE
      omega
    · intro s gr hgr
      have hlen : gr.length = 52 := by
        rw [Grid.generate_game_grid_ok] at hgr
        injection hgr with h2
        rw [← h2, Grid.shuffle_down_length, Grid.spec_initial_items_length]
      unfold Grid.GRID_SIZE
      omega
  · simp [Grid.is_valid_coordinate, String.toList, hc] at h

/-- Witness for C10 at the concrete coordinate of the spec's scenario. -/
theorem C10_witness :
    Grid.is_valid_coordinate "A1" = true ∧
    (∃ i, Grid.coordinate_to_grid_index "A1" = .ok i ∧ i < 49 ∧
      ∀ s gr, Grid.generate_game_grid s = .ok gr → i < gr.length) :=
  ⟨rfl, C10_coordinate_index_in_bounds "A1" rfl⟩

/-! ### Winner determination (C4) -/

namespace Grid

theorem max_by_key_last_none (l : List Nat) : max_by_key_last l = none ↔ l = [] := by
  cases l with
  | nil => simp [max_by_key_last]
  | cons a l2 =>
    simp only [max_by_key_last]
    cases h : max_by_key_last l2 with
    | none => simp
    | some jt => by_cases hle : a ≤ jt.2 <;> simp [hle]

theorem max_by_key_last_spec (l : List Nat) (j t : Nat)
    (h : max_by_key_last l = some (j, t)) :
    ∃ l1 l2, l = l1 ++ t :: l2 ∧ j = l1.length ∧
      (∀ z ∈ l1, z ≤ t) ∧ (∀ z ∈ l2, z < t) := by
  induction l generalizing j t with
  | nil => simp [max_by_key_last] at h
  | cons a l2 ih =>
    simp only [max_by_key_last] at h
    cases h2 : max_by_key_last l2 with
    | none =>
      rw [h2] at h
      simp only [Option.some.injEq, Prod.mk.injEq] at h
      obtain ⟨hj, ht⟩ := h
      subst hj
      subst ht
      have hl2 : l2 = [] := (max_by_key_last_none l2).mp h2
      subst hl2
      exact ⟨[], [], rfl, rfl, by simp, by simp⟩
    | some jt =>
      rw [h2] at h
      obtain ⟨j2, t2⟩ := jt
      by_cases hle : a ≤ t2
      · simp only [hle, if_pos, Option.some.injEq, Prod.mk.injEq] at h
        obtain ⟨hj, ht⟩ := h
        subst hj
        subst ht
        obtain ⟨l1, l3, heq, hlen, h1, h3⟩ := ih j2 t2 h2
        refine ⟨a :: l1, l3, by simp [heq], by simp [hlen], ?_, h3⟩
        intro z hz
        rcases List.mem_cons.mp hz with hz | hz
        · omega
        · exact h1 z hz
      · simp only [hle, if_neg, if_false, Option.some.injEq, Prod.mk.injEq] at h
        obtain ⟨hj, ht⟩ := h
        subst hj
        subst ht
        obtain ⟨l1, l3, heq, hlen, h1, h3⟩ := ih j2 t2 h2
        refine ⟨[], l2, rfl, rfl, by simp, ?_⟩
        intro z hz
        rw [heq] at hz
        rcases List.mem_append.mp hz with hz | hz
        · have := h1 z hz
          omega
        · rcases List.mem_cons.mp hz with hz | hz
          · omega
          · have := h3 z hz
            omega

end Grid

namespace Pirate

theorem first_max_by_none {α : Type} (key : α → Nat) (l : List α) :
    first_max_by key l = none ↔ l = [] := by
  cases l with
  | nil => simp [first_max_by]
  | cons a l2 =>
    simp only [first_max_by]
    cases h : first_max_by key l2 with
    | none => simp
    | some b => by_cases hlt : key a < key b <;> simp [hlt]

theorem first_max_by_spec {α : Type} (key : α → Nat) (l : List α) (x : α)
    (h : first_max_by key l = some x) :
    ∃ l1 l2, l = l1 ++ x :: l2 ∧ (∀ z ∈ l1, key z < key x) ∧
      (∀ z ∈ l, key z ≤ key x) := by
  induction l generalizing x with
  | nil => simp [first_max_by] at h
  | cons a l2 ih =>
    simp only [first_max_by] at h
    cases h2 : first_max_by key l2 with
    | none =>
      rw [h2] at h
      simp only [Option.some.injEq] at h
      subst h
      have hl2 : l2 = [] := (first_max_by_none key l2).mp h2
      subst hl2
      exact ⟨[], [], rfl, by simp, by simp⟩
    | some b =>
      rw [h2] at h
      have h4 : (if key a < key b then some b else some a) = some x := h
      obtain ⟨l1, l3, heq, h1, h3⟩ := ih b h2
      by_cases hlt : key a < key b
      · rw [if_pos hlt] at h4
        simp only [Option.some.injEq] at h4
        subst h4
        refine ⟨a :: l1, l3, by simp [heq], ?_, ?_⟩
        · intro z hz
          rcases List.mem_cons.mp hz with hz | hz
          · subst hz
            omega
          · exact h1 z hz
        · intro z hz
          rcases List.mem_cons.mp hz with hz | hz
          · subst hz
            omega
          · exact h3 z hz
      · rw [if_neg hlt] at h4
        simp only [Option.some.injEq] at h4
        subst h4
        refine ⟨[], l2, rfl, by simp, ?_⟩
        intro z hz
        rcases List.mem_cons.mp hz with hz | hz
        · subst hz
          omega
        · have := h3 z hz
          omega

theorem head_insert_desc {α : Type} (key : α → Nat) (x : α) (l : List α) :
    (insert_desc key x l).head? =
      match l.head? with
      | none => some x
      | some y => if key y ≤ key x then some x else some y := by
  cases l with
  | nil => rfl
  | cons y ys => by_cases h : key y ≤ key x <;> simp [insert_desc, h]

theorem head_sort_desc {α : Type} (key : α → Nat) (l : List α) :
    (sort_desc key l).head? = first_max_by key l := by
  induction l with
  | nil => rfl
  | cons a l2 ih =>
    simp only [sort_desc, first_max_by]
    rw [head_insert_desc, ih]
    cases h : first_max_by key l2 with
    | none => simp
    | some b =>
      by_cases hlt : key a < key b
      · have hle : ¬(key b ≤ key a) := by omega
        simp [hle, hlt]
      · have hle : key b ≤ key a := by omega
        simp [hle, hlt]

theorem scored_players_ne_nil (g : PirateGame)
    (h : ∃ p ∈ g.players, p.is_active = true) : scored_players g ≠ [] := by
  obtain ⟨p, hp, ha⟩ := h
  intro hnil
  rw [scored_players, List.map_eq_nil_iff, List.filter_eq_nil_iff] at hnil
  exact absurd ha (by simpa using hnil p hp)

end Pirate

/-- Two players with equal final scores, used to exercise the tie-break. -/
def c4_tie_game : Grid.Game :=
  { status := .Completed,
    players := [{ Grid.dfltPlayer with player_key := 0, points := 100 },
                { Grid.dfltPlayer with player_key := 1, points := 100 }],
    current_player_index := 0, grid := [], chosen_coordinates := [] }

/-- An inactive player with the highest score, used to show the active
flag is not consulted. -/
def c4_inactive_game : Grid.Game :=
  { status := .Completed,
    players := [{ Grid.dfltPlayer with player_key := 0, points := 5 },
                { Grid.dfltPlayer with player_key := 1, points := 9, is_active := false }],
    current_player_index := 0, grid := [], chosen_coordinates := [] }

/-- Claim C4, counterexample: `determine_winner` breaks ties by the
**last** player-list position, not the earliest — with two players both
scoring 100 it returns index 1 where the claim requires index 0 — and it
ranks inactive players too: an inactive player with the top score is
returned as the winner. -/
theorem C4_counterexample_tie_goes_last :
    Grid.determine_winner c4_tie_game = some 1 ∧
    Grid.calculate_final_scores c4_tie_game = [100, 100] ∧
    Grid.determine_winner c4_inactive_game = some 1 ∧
    (Grid.pget c4_inactive_game.players 1).is_active = false := by
  refine ⟨?_, ?_, ?_, ?_⟩ <;> rfl

/-- Claim C4 (amended): when the game ends with no victory condition met,
the winner is determined by final score, with these tie-break rules.  In
the item-grid variant (`determine_winner`, used when the coordinates are
exhausted) the winner is the player — active or not — with the highest
`points + banked_points`, ties broken by the **latest** player-list
position.  In the pirate variant's 50-turn ceiling path
(`check_and_complete_game`) the winner is the active player with the
highest weighted score, ties broken by the **earliest** player-list
position (the stable descending sort keeps equal scores in list
order). -/
theorem C4_end_by_score (gg : Grid.Game) (hgg : gg.players ≠ [])
    (pg : Pirate.PirateGame) (now : Nat)
    (hst : pg.status = Pirate.GameStatus.Active)
    (hturn : Pirate.MAX_TURNS ≤ pg.turn_number)
    (hact : ∃ p ∈ pg.players, p.is_active = true) :
    (∃ j t l1 l2, Grid.determine_winner gg = some j ∧
        Grid.calculate_final_scores gg = l1 ++ t :: l2 ∧ j = l1.length ∧
        (∀ z ∈ l1, z ≤ t) ∧ (∀ z ∈ l2, z < t)) ∧
    (∃ w sc l1 l2 g2, Pirate.check_and_complete_game pg now = .ok g2 ∧
        g2.status = Pirate.GameStatus.Completed ∧ g2.winner = some w ∧
        Pirate.scored_players pg = l1 ++ (w, sc) :: l2 ∧
        (∀ z ∈ l1, z.2 < sc) ∧
        (∀ z ∈ Pirate.scored_players pg, z.2 ≤ sc)) := by
  constructor
  · obtain ⟨jt, hjt⟩ : ∃ jt, Grid.max_by_key_last (Grid.calculate_final_scores gg) = some jt := by
      cases hmk : Grid.max_by_key_last (Grid.calculate_final_scores gg) with
      | none =>
        have h0 := (Grid.max_by_key_last_none _).mp hmk
        rw [Grid.calculate_final_scores, List.map_eq_nil_iff] at h0
        exact absurd h0 hgg
      | some jt => exact ⟨jt, rfl⟩
    obtain ⟨j, t⟩ := jt
    obtain ⟨l1, l2, heq, hlen, h1, h2⟩ := Grid.max_by_key_last_spec _ j t hjt
    refine ⟨j, t, l1, l2, ?_, heq, hlen, h1, h2⟩
    rw [Grid.determine_winner, hjt]
    rfl
  · obtain ⟨x, hx⟩ : ∃ x, Pirate.first_max_by (fun z => z.2) (Pirate.scored_players pg)
        = some x := by
      cases hmk : Pirate.first_max_by (fun z => z.2) (Pirate.scored_players pg) with
      | none =>
        have h0 := (Pirate.first_max_by_none _ _).mp hmk
        exact absurd h0 (Pirate.scored_players_ne_nil pg hact)
      | some x => exact ⟨x, rfl⟩
    obtain ⟨w, sc⟩ := x
    obtain ⟨l1, l2, heq, h1, h2⟩ := Pirate.first_max_by_spec _ _ _ hx
    refine ⟨w, sc, l1, l2,
      { pg with status := .Completed, winner := some w, completed_at := some now },
      ?_, rfl, rfl, heq, (fun z hz => h1 z hz), (fun z hz => h2 z hz)⟩
    rw [Pirate.check_and_complete_game, if_neg (by simp [hst]), if_pos hturn]
    rw [Pirate.head_sort_desc, hx]

/-- One-active-player pirate game at the turn ceiling, for the C4 witness. -/
def c4_pirate_game : Pirate.PirateGame :=
  { status := .Active,
    players := [{ Pirate.dfltPlayerData with pubkey := 7, is_active := true }],
    player_count := 1, current_player_index := 0, territory_map := [],
    turn_number := 50, completed_at := none, winner := none,
    weather_type := .Calm, weather_duration := 2 }

/-- Witness for C4 at concrete games: the tie game for the item-grid
variant and a one-player pirate game at the 50-turn ceiling. -/
theorem C4_witness :
    (c4_tie_game.players ≠ [] ∧
      c4_pirate_game.status = Pirate.GameStatus.Active ∧
      Pirate.MAX_TURNS ≤ c4_pirate_game.turn_number ∧
      (∃ p ∈ c4_pirate_game.players, p.is_active = true)) ∧
    ((∃ j t l1 l2, Grid.determine_winner c4_tie_game = some j ∧
        Grid.calculate_final_scores c4_tie_game = l1 ++ t :: l2 ∧ j = l1.length ∧
        (∀ z ∈ l1, z ≤ t) ∧ (∀ z ∈ l2, z < t)) ∧
      (∃ w sc l1 l2 g2, Pirate.check_and_complete_game c4_pirate_game 0 = .ok g2 ∧
        g2.status = Pirate.GameStatus.Completed ∧ g2.winner = some w ∧
        Pirate.scored_players c4_pirate_game = l1 ++ (w, sc) :: l2 ∧
        (∀ z ∈ l1, z.2 < sc) ∧
        (∀ z ∈ Pirate.scored_players c4_pirate_game, z.2 ≤ sc))) :=
  ⟨⟨by simp [c4_tie_game], rfl, by decide, by decide⟩,
    C4_end_by_score c4_tie_game (by simp [c4_tie_game]) c4_pirate_game 0 rfl
      (by decide) (by decide)⟩

/-! ### Turn advancement (C5) -/

namespace Pirate

theorem skip_inactive_exhausted (ps : List PlayerData) (n next : Nat) :
    skip_inactive ps n next n = next := by
  rw [skip_inactive, Nat.sub_self]
  rfl

theorem skip_inactive_stop (ps : List PlayerData) (n next attempts : Nat)
    (ha : (pgetP ps next).is_active = true) :
    skip_inactive ps n next attempts = next := by
  rw [skip_inactive]
  cases hf : n - attempts with
  | zero => rfl
  | succ f =>
    rw [skip_inactive_go, if_neg (by simp [ha])]

theorem skip_inactive_step (ps : List PlayerData) (n next attempts : Nat)
    (hl : attempts < n) (ha : (pgetP ps next).is_active = false) :
    skip_inactive ps n next attempts
      = skip_inactive ps n ((next + 1) % n) (attempts + 1) := by
  rw [skip_inactive, skip_inactive]
  have hf : n - attempts = (n - (attempts + 1)) + 1 := by omega
  rw [hf, skip_inactive_go, if_pos ⟨hl, ha⟩]

theorem skip_inactive_finds_active (ps : List PlayerData) (n : Nat) (k : Nat) :
    ∀ next attempts, next < n → attempts + k + 1 ≤ n →
      (pgetP ps ((next + k) % n)).is_active = true →
      skip_inactive ps n next attempts < n ∧
        (pgetP ps (skip_inactive ps n next attempts)).is_active = true := by
  induction k with
  | zero =>
    intro next attempts hn hb hact
    rw [Nat.add_zero, Nat.mod_eq_of_lt hn] at hact
    rw [skip_inactive_stop ps n next attempts hact]
    exact ⟨hn, hact⟩
  | succ k ih =>
    intro next attempts hn hb hact
    by_cases ha : (pgetP ps next).is_active = true
    · rw [skip_inactive_stop ps n next attempts ha]
      exact ⟨hn, ha⟩
    · have ha2 : (pgetP ps next).is_active = false := by
        cases hv : (pgetP ps next).is_active
        · rfl
        · exact absurd hv ha
      rw [skip_inactive_step ps n next attempts (by omega) ha2]
      apply ih ((next + 1) % n) (attempts + 1) (Nat.mod_lt _ (by omega)) (by omega)
      have hmod : ((next + 1) % n + k) % n = (next + (k + 1)) % n := by
        rw [Nat.mod_add_mod]
        congr 1
        omega
      rw [hmod]
      exact hact

theorem update_weather_frame (g : PirateGame) (now : Nat) :
    (update_weather g now).players = g.players ∧
    (update_weather g now).current_player_index = g.current_player_index ∧
    (update_weather g now).player_count = g.player_count := by
  unfold update_weather
  dsimp only
  split_ifs <;> exact ⟨rfl, rfl, rfl⟩

theorem pirate_advance_turn_frame (g : PirateGame) (now : Nat)
    (hn : 0 < g.player_count) :
    (pirate_advance_turn g now).current_player_index
        = skip_inactive g.players g.player_count
            ((g.current_player_index + 1) % g.player_count) 0 ∧
    (pirate_advance_turn g now).players = g.players ∧
    (pirate_advance_turn g now).player_count = g.player_count := by
  unfold pirate_advance_turn
  rw [if_neg (by omega)]
  dsimp only
  split
  · refine ⟨?_, ?_, ?_⟩
    · rw [(update_weather_frame _ _).2.1]
    · rw [(update_weather_frame _ _).1]
    · rw [(update_weather_frame _ _).2.2]
  · exact ⟨rfl, rfl, rfl⟩

end Pirate

namespace Grid

theorem pget_mem (ps : List PlayerState) (i : Nat) (h : i < ps.length) :
    pget ps i ∈ ps := by
  induction ps generalizing i with
  | nil => simp at h
  | cons a as ih =>
    cases i with
    | zero => exact List.mem_cons_self _ _
    | succ n => exact List.mem_cons_of_mem _ (ih n (by simpa using h))

end Grid

/-- Claim C5: for an active pirate game with a non-empty player list and
at least one active player, after `advance_turn` the current index is in
`[0, player_count)` and the player at that index is active; the skip loop
makes at most `player_count` attempts (once the attempt budget is spent
it stops immediately).  For the item-grid variant, whose `advance_turn`
is a plain increment modulo the player count (no instruction of that
variant ever clears `is_active`, so every reachable player is active),
the index stays in bounds and — under all-players-active, which holds on
every reachable state — the player at the new index is active. -/
theorem C5_turn_invariant (g : Pirate.PirateGame) (now : Nat)
    (hn : 0 < g.player_count)
    (hact : ∃ i, i < g.player_count ∧ (Pirate.pgetP g.players i).is_active = true) :
    ((Pirate.pirate_advance_turn g now).current_player_index < g.player_count ∧
      (Pirate.pgetP (Pirate.pirate_advance_turn g now).players
        (Pirate.pirate_advance_turn g now).current_player_index).is_active = true) ∧
    (∀ ps next, Pirate.skip_inactive ps g.player_count next g.player_count = next) ∧
    ∀ (gg : Grid.Game), gg.players ≠ [] →
      (Grid.grid_advance_turn gg).current_player_index < gg.players.length ∧
      ((∀ p ∈ gg.players, p.is_active = true) →
        (Grid.pget (Grid.grid_advance_turn gg).players
          (Grid.grid_advance_turn gg).current_player_index).is_active = true) := by
  obtain ⟨i, hi, hia⟩ := hact
  obtain ⟨hidx, hpl, hcnt⟩ := Pirate.pirate_advance_turn_frame g now hn
  refine ⟨?_, ?_, ?_⟩
  · set n := g.player_count with hnn
    set start := (g.current_player_index + 1) % n with hstart
    have hstartlt : start < n := Nat.mod_lt _ (by omega)
    have hklt : (i + (n - start)) % n < n := Nat.mod_lt _ (by omega)
    have hk : (start + (i + (n - start)) % n) % n = i := by
      rw [Nat.add_mod_mod]
      have h1 : start + (i + (n - start)) = i + n := by omega
      rw [h1, Nat.add_mod_right, Nat.mod_eq_of_lt hi]
    have hmain := Pirate.skip_inactive_finds_active g.players n ((i + (n - start)) % n)
      start 0 hstartlt (by omega) (by rw [hk]; exact hia)
    rw [hidx, hpl]
    exact hmain
  · intro ps next
    exact Pirate.skip_inactive_exhausted ps g.player_count next
  · intro gg hgg
    have hlen : 0 < gg.players.length := List.length_pos.mpr hgg
    refine ⟨Nat.mod_lt _ hlen, ?_⟩
    intro hall
    apply hall
    exact Grid.pget_mem _ _ (Nat.mod_lt _ hlen)

/-- Two-player pirate game whose second player is inactive, for the C5
witness: the advance from player 0 must skip player 1 and land back on
the active player 0. -/
def c5_game : Pirate.PirateGame :=
  { status := .Active,
    players := [{ Pirate.dfltPlayerData with pubkey := 1, is_active := true },
                { Pirate.dfltPlayerData with pubkey := 2, is_active := false }],
    player_count := 2, current_player_index := 0, territory_map := [],
    turn_number := 3, completed_at := none, winner := none,
    weather_type := .Calm, weather_duration := 2 }

/-- Witness for C5 at a concrete game with an inactive player to skip. -/
theorem C5_witness :
    (0 < c5_game.player_count ∧
      (∃ i, i < c5_game.player_count ∧
        (Pirate.pgetP c5_game.players i).is_active = true)) ∧
    (((Pirate.pirate_advance_turn c5_game 0).current_player_index < c5_game.player_count ∧
      (Pirate.pgetP (Pirate.pirate_advance_turn c5_game 0).players
        (Pirate.pirate_advance_turn c5_game 0).current_player_index).is_active = true) ∧
    (∀ ps next,
      Pirate.skip_inactive ps c5_game.player_count next c5_game.player_count = next) ∧
    ∀ (gg : Grid.Game), gg.players ≠ [] →
      (Grid.grid_advance_turn gg).current_player_index < gg.players.length ∧
      ((∀ p ∈ gg.players, p.is_active = true) →
        (Grid.pget (Grid.grid_advance_turn gg).players
          (Grid.grid_advance_turn gg).current_player_index).is_active = true)) :=
  ⟨⟨by decide, ⟨0, by decide, rfl⟩⟩,
    C5_turn_invariant c5_game 0 (by decide) ⟨0, by decide, rfl⟩⟩

/-! ### Territory claiming (C1) -/

/-- Game in which player 1 already owns and controls cell `(1,1)`, it is
player 2's turn, and player 2 has a ship standing on that cell. -/
def c1_game : Pirate.PirateGame :=
  { status := .Active,
    players := [
      { Pirate.dfltPlayerData with
          pubkey := 1
          is_active := true
          controlled_territories := ["1,1"] },
      { Pirate.dfltPlayerData with
          pubkey := 2
          is_active := true
          ships := [{ id := "b1", health := 100, attack := 20, defense := 10,
                      speed := 3, position_x := 1, position_y := 1,
                      last_action_turn := 0 }] }],
    player_count := 2, current_player_index := 1,
    territory_map := (List.replicate 100
        ({ cell_type := .Water, owner := none } : Pirate.TerritoryCell)).set 11
        { cell_type := .Island, owner := some 1 },
    turn_number := 3, completed_at := none, winner := none,
    weather_type := .Calm, weather_duration := 2 }

/-- Claim C1: the at-most-one-claim invariant fails on the code.
`claim_territory` checks only the cell type, never the cell's owner, so
player 2's claim on the already-owned cell `(1,1)` succeeds: afterwards
the coordinate sits in **both** players' controlled-territory sets and
the cell's recorded owner has been overwritten to player 2.  (The spec
requires "the cell must be unowned"; the code has no such check.) -/
theorem C1_double_claim :
    (Pirate.claim_territory c1_game 2 ("b1") 0).toOption.map
      (fun g2 => ((Pirate.pgetP g2.players 0).controlled_territories.contains ("1,1"),
                  (Pirate.pgetP g2.players 1).controlled_territories.contains ("1,1"),
                  (g2.territory_map.getD 11
                    { cell_type := .Water, owner := none }).owner))
    = some (true, true, some 2) := by
  decide

/-! ### Item-effect branch equations (shared by C3 and C9) -/

namespace Grid

theorem eie_not_active (g : Game) (caller : Nat) (act : ItemAction) (target : Option Nat)
    (h : g.status ≠ GameStatus.Active) :
    execute_item_effect g caller act target = .error .GameNotActive := by
  unfold execute_item_effect
  rw [if_pos h]

theorem eie_no_current (g : Game) (caller : Nat) (act : ItemAction) (target : Option Nat)
    (h : g.status = GameStatus.Active)
    (hcp : g.players.get? g.current_player_index = none) :
    execute_item_effect g caller act target = .error .InvalidPlayerIndex := by
  unfold execute_item_effect
  rw [if_neg (by simp [h]), hcp]

theorem eie_wrong_key (g : Game) (caller : Nat) (act : ItemAction) (target : Option Nat)
    (cp : PlayerState)
    (h : g.status = GameStatus.Active)
    (hcp : g.players.get? g.current_player_index = some cp)
    (hkey : cp.player_key ≠ caller) :
    execute_item_effect g caller act target = .error .NotYourTurn := by
  unfold execute_item_effect
  rw [if_neg (by simp [h]), hcp]
  simp [hkey]

theorem eie_self_target (g : Game) (caller : Nat) (act : ItemAction)
    (cp : PlayerState)
    (h : g.status = GameStatus.Active)
    (hcp : g.players.get? g.current_player_index = some cp)
    (hkey : cp.player_key = caller) :
    execute_item_effect g caller act (some caller) = .error .CannotTargetSelf := by
  unfold execute_item_effect
  rw [if_neg (by simp [h]), hcp]
  simp [hkey]

theorem eie_target_missing (g : Game) (caller t : Nat) (act : ItemAction)
    (cp : PlayerState)
    (h : g.status = GameStatus.Active)
    (hcp : g.players.get? g.current_player_index = some cp)
    (hkey : cp.player_key = caller)
    (hne : t ≠ caller)
    (hfi : find_index_key t g.players = none) :
    execute_item_effect g caller act (some t) = .error .TargetPlayerNotFound := by
  unfold execute_item_effect
  rw [if_neg (by simp [h]), hcp]
  simp [hkey, hne, hfi]

theorem eie_none_target_steal (g : Game) (caller amt : Nat) (cp : PlayerState)
    (h : g.status = GameStatus.Active)
    (hcp : g.players.get? g.current_player_index = some cp)
    (hkey : cp.player_key = caller) :
    execute_item_effect g caller (.Steal amt) none = .error .TargetPlayerNotFound := by
  unfold execute_item_effect
  rw [if_neg (by simp [h]), hcp]
  simp [hkey]

theorem eie_none_target_swap (g : Game) (caller : Nat) (cp : PlayerState)
    (h : g.status = GameStatus.Active)
    (hcp : g.players.get? g.current_player_index = some cp)
    (hkey : cp.player_key = caller) :
    execute_item_effect g caller .Swap none = .error .TargetPlayerNotFound := by
  unfold execute_item_effect
  rw [if_neg (by simp [h]), hcp]
  simp [hkey]

theorem eie_none_target_gift (g : Game) (caller : Nat) (cp : PlayerState)
    (h : g.status = GameStatus.Active)
    (hcp : g.players.get? g.current_player_index = some cp)
    (hkey : cp.player_key = caller) :
    execute_item_effect g caller .Gift none = .error .TargetPlayerNotFound := by
  unfold execute_item_effect
  rw [if_neg (by simp [h]), hcp]
  simp [hkey]

theorem target_ne_current (g : Game) (caller t ti : Nat) (cp : PlayerState)
    (hcp : g.players.get? g.current_player_index = some cp)
    (hkey : cp.player_key = caller) (hne : t ≠ caller)
    (hfi : find_index_key t g.players = some ti) :
    ti ≠ g.current_player_index ∧ ti < g.players.length ∧
      g.current_player_index < g.players.length := by
  obtain ⟨htl, htk⟩ := find_index_key_spec t g.players ti hfi
  obtain ⟨hpc, hcl⟩ := get?_pget g.players g.current_player_index cp hcp
  refine ⟨?_, htl, hcl⟩
  intro heq
  rw [heq, hpc, hkey] at htk
  exact hne htk.symm

/-- Replace the player list (used to state the branch results of
`execute_item_effect` compactly). -/
def with_players (g : Game) (ps : List PlayerState) : Game := { g with players := ps }

theorem eie_steal_elf (g : Game) (caller t ti amt : Nat) (cp : PlayerState)
    (h : g.status = GameStatus.Active)
    (hcp : g.players.get? g.current_player_index = some cp)
    (hkey : cp.player_key = caller) (hne : t ≠ caller)
    (hfi : find_index_key t g.players = some ti)
    (helf : (pget g.players ti).has_elf = true) :
    execute_item_effect g caller (.Steal amt) (some t)
      = .ok (grid_advance_turn (with_players g
          (g.players.set ti { pget g.players ti with has_elf := false }))) := by
  unfold execute_item_effect
  rw [if_neg (by simp [h]), hcp]
  simp [hkey, hne, hfi, helf, with_players]

theorem eie_steal_bauble (g : Game) (caller t ti amt : Nat) (cp : PlayerState)
    (h : g.status = GameStatus.Active)
    (hcp : g.players.get? g.current_player_index = some cp)
    (hkey : cp.player_key = caller) (hne : t ≠ caller)
    (hfi : find_index_key t g.players = some ti)
    (helf : (pget g.players ti).has_elf = false)
    (hbau : (pget g.players ti).has_bauble = true) :
    execute_item_effect g caller (.Steal amt) (some t)
      = .ok (grid_advance_turn (with_players g
          (steal_transfer (g.players.set ti { pget g.players ti with has_bauble := false })
            g.current_player_index ti amt))) := by
  unfold execute_item_effect
  rw [if_neg (by simp [h]), hcp]
  simp [hkey, hne, hfi, helf, hbau, with_players]

theorem eie_steal_normal (g : Game) (caller t ti amt : Nat) (cp : PlayerState)
    (h : g.status = GameStatus.Active)
    (hcp : g.players.get? g.current_player_index = some cp)
    (hkey : cp.player_key = caller) (hne : t ≠ caller)
    (hfi : find_index_key t g.players = some ti)
    (helf : (pget g.players ti).has_elf = false)
    (hbau : (pget g.players ti).has_bauble = false) :
    execute_item_effect g caller (.Steal amt) (some t)
      = .ok (grid_advance_turn (with_players g
          (steal_transfer g.players ti g.current_player_index amt))) := by
  unfold execute_item_effect
  rw [if_neg (by simp [h]), hcp]
  simp [hkey, hne, hfi, helf, hbau, with_players]

theorem eie_swap_elf (g : Game) (caller t ti : Nat) (cp : PlayerState)
    (h : g.status = GameStatus.Active)
    (hcp : g.players.get? g.current_player_index = some cp)
    (hkey : cp.player_key = caller) (hne : t ≠ caller)
    (hfi : find_index_key t g.players = some ti)
    (helf : (pget g.players ti).has_elf = true) :
    execute_item_effect g caller .Swap (some t)
      = .ok (grid_advance_turn (with_players g
          (g.players.set ti { pget g.players ti with has_elf := false }))) := by
  unfold execute_item_effect
  rw [if_neg (by simp [h]), hcp]
  simp [hkey, hne, hfi, helf, with_players]

theorem eie_swap_bauble (g : Game) (caller t ti : Nat) (cp : PlayerState)
    (h : g.status = GameStatus.Active)
    (hcp : g.players.get? g.current_player_index = some cp)
    (hkey : cp.player_key = caller) (hne : t ≠ caller)
    (hfi : find_index_key t g.players = some ti)
    (helf : (pget g.players ti).has_elf = false)
    (hbau : (pget g.players ti).has_bauble = true) :
    execute_item_effect g caller .Swap (some t)
      = .ok (grid_advance_turn (with_players g
          (g.players.set ti { pget g.players ti with has_bauble := false }))) := by
  unfold execute_item_effect
  rw [if_neg (by simp [h]), hcp]
  simp [hkey, hne, hfi, helf, hbau, with_players]

theorem eie_swap_normal (g : Game) (caller t ti : Nat) (cp : PlayerState)
    (h : g.status = GameStatus.Active)
    (hcp : g.players.get? g.current_player_index = some cp)
    (hkey : cp.player_key = caller) (hne : t ≠ caller)
    (hfi : find_index_key t g.players = some ti)
    (helf : (pget g.players ti).has_elf = false)
    (hbau : (pget g.players ti).has_bauble = false)
    (hciti : ti ≠ g.current_player_index) :
    execute_item_effect g caller .Swap (some t)
      = .ok (grid_advance_turn (with_players g
          ((g.players.set g.current_player_index
              { pget g.players g.current_player_index with points := (pget g.players ti).points }).set
            ti
            { pget g.players ti with
                points := (pget g.players g.current_player_index).points }))) := by
  unfold execute_item_effect
  rw [if_neg (by simp [h]), hcp]
  simp [hkey, hne, hfi, helf, hbau, with_players, pget_set_ne, Ne.symm hciti]

theorem eie_gift_poor (g : Game) (caller t : Nat) (cp : PlayerState)
    (h : g.status = GameStatus.Active)
    (hcp : g.players.get? g.current_player_index = some cp)
    (hkey : cp.player_key = caller) (hne : t ≠ caller)
    (hpts : (pget g.players g.current_player_index).points < GIFT_AMOUNT) :
    execute_item_effect g caller .Gift (some t) = .error .NotEnoughPoints ∨
      execute_item_effect g caller .Gift (some t) = .error .TargetPlayerNotFound := by
  unfold execute_item_effect
  rw [if_neg (by simp [h]), hcp]
  cases hfi : find_index_key t g.players with
  | none =>
    right
    simp [hkey, hne, hfi]
  | some ti =>
    left
    simp [hkey, hne, hfi, hpts]

theorem eie_gift_ok (g : Game) (caller t ti : Nat) (cp : PlayerState)
    (h : g.status = GameStatus.Active)
    (hcp : g.players.get? g.current_player_index = some cp)
    (hkey : cp.player_key = caller) (hne : t ≠ caller)
    (hfi : find_index_key t g.players = some ti)
    (hpts : GIFT_AMOUNT ≤ (pget g.players g.current_player_index).points)
    (hciti : ti ≠ g.current_player_index) :
    execute_item_effect g caller .Gift (some t)
      = .ok (grid_advance_turn (with_players g
          ((g.players.set g.current_player_index
              { pget g.players g.current_player_index with
                  points := (pget g.players g.current_player_index).points - GIFT_AMOUNT }).set
            ti
            { pget g.players ti with
                points := satAdd64 (pget g.players ti).points GIFT_AMOUNT }))) := by
  unfold execute_item_effect
  rw [if_neg (by simp [h]), hcp]
  simp [hkey, hne, hfi, Nat.not_lt.mpr hpts, with_players, pget_set_ne, Ne.symm hciti]

theorem eie_kill_elf (g : Game) (caller t ti : Nat) (cp : PlayerState)
    (h : g.status = GameStatus.Active)
    (hcp : g.players.get? g.current_player_index = some cp)
    (hkey : cp.player_key = caller) (hne : t ≠ caller)
    (hfi : find_index_key t g.players = some ti)
    (helf : (pget g.players ti).has_elf = true) :
    execute_item_effect g caller .Kill (some t)
      = .ok (grid_advance_turn (with_players g
          (g.players.set ti { pget g.players ti with has_elf := false }))) := by
  unfold execute_item_effect
  rw [if_neg (by simp [h]), hcp]
  simp [hkey, hne, hfi, helf, with_players]

theorem eie_kill_bauble (g : Game) (caller t ti : Nat) (cp : PlayerState)
    (h : g.status = GameStatus.Active)
    (hcp : g.players.get? g.current_player_index = some cp)
    (hkey : cp.player_key = caller) (hne : t ≠ caller)
    (hfi : find_index_key t g.players = some ti)
    (helf : (pget g.players ti).has_elf = false)
    (hbau : (pget g.players ti).has_bauble = true) :
    execute_item_effect g caller .Kill (some t)
      = .ok (grid_advance_turn (with_players g
          (kill_reset (g.players.set ti { pget g.players ti with has_bauble := false })
            g.current_player_index))) := by
  unfold execute_item_effect
  rw [if_neg (by simp [h]), hcp]
  simp [hkey, hne, hfi, helf, hbau, with_players]

theorem eie_kill_normal (g : Game) (caller t ti : Nat) (cp : PlayerState)
    (h : g.status = GameStatus.Active)
    (hcp : g.players.get? g.current_player_index = some cp)
    (hkey : cp.player_key = caller) (hne : t ≠ caller)
    (hfi : find_index_key t g.players = some ti)
    (helf : (pget g.players ti).has_elf = false)
    (hbau : (pget g.players ti).has_bauble = false) :
    execute_item_effect g caller .Kill (some t)
      = .ok (grid_advance_turn (with_players g (kill_reset g.players ti))) := by
  unfold execute_item_effect
  rw [if_neg (by simp [h]), hcp]
  simp [hkey, hne, hfi, helf, hbau, with_players]

end Grid

/-! ### Point conservation (C9) -/

namespace Grid

theorem grid_advance_players (g : Game) :
    (grid_advance_turn g).players = g.players := rfl

theorem flag_set_sum (ps : List PlayerState) (i : Nat) (q : PlayerState)
    (hl : i < ps.length) (hq : q.points = (pget ps i).points) :
    sum_points (ps.set i q) = sum_points ps := by
  have h := sum_points_set ps i q hl
  omega

theorem steal_transfer_sum (ps : List PlayerState) (fromI toI amt : Nat)
    (hf : fromI < ps.length) (ht : toI < ps.length) (hne : fromI ≠ toI)
    (hsum : sum_points ps ≤ U64MAX) :
    sum_points (steal_transfer ps fromI toI amt) = sum_points ps := by
  unfold steal_transfer
  dsimp only
  have hle : min amt (pget ps fromI).points ≤ (pget ps fromI).points := Nat.min_le_right _ _
  have h2 := points_two_le_sum ps fromI toI hf ht hne
  have hA : (pget ps fromI).points ≤ sum_points ps := points_le_sum ps fromI hf
  have hg1 := pget_set_ne ps fromI toI
    ⟨(pget ps fromI).player_key, (pget ps fromI).points - min amt (pget ps fromI).points,
      (pget ps fromI).banked_points, (pget ps fromI).has_elf, (pget ps fromI).has_bauble,
      (pget ps fromI).is_active⟩ hne
  rw [hg1]
  have hsat : satAdd64 (pget ps toI).points (min amt (pget ps fromI).points)
      = (pget ps toI).points + min amt (pget ps fromI).points := by
    unfold satAdd64
    omega
  rw [hsat]
  have h1 := sum_points_set ps fromI
    ⟨(pget ps fromI).player_key, (pget ps fromI).points - min amt (pget ps fromI).points,
      (pget ps fromI).banked_points, (pget ps fromI).has_elf, (pget ps fromI).has_bauble,
      (pget ps fromI).is_active⟩ hf
  have h3 := sum_points_set
    (ps.set fromI
      ⟨(pget ps fromI).player_key, (pget ps fromI).points - min amt (pget ps fromI).points,
        (pget ps fromI).banked_points, (pget ps fromI).has_elf, (pget ps fromI).has_bauble,
        (pget ps fromI).is_active⟩)
    toI
    ⟨(pget ps toI).player_key, (pget ps toI).points + min amt (pget ps fromI).points,
      (pget ps toI).banked_points, (pget ps toI).has_elf, (pget ps toI).has_bauble,
      (pget ps toI).is_active⟩
    (by rw [List.length_set]; exact ht)
  rw [hg1] at h3
  dsimp only at h1 h3
  omega

theorem swap_sum (ps : List PlayerState) (ci ti : Nat) (hci : ci < ps.length)
    (hti : ti < ps.length) (hne : ti ≠ ci) :
    sum_points ((ps.set ci { pget ps ci with points := (pget ps ti).points }).set ti
      { pget ps ti with points := (pget ps ci).points }) = sum_points ps := by
  show sum_points ((ps.set ci
      ⟨(pget ps ci).player_key, (pget ps ti).points, (pget ps ci).banked_points,
        (pget ps ci).has_elf, (pget ps ci).has_bauble, (pget ps ci).is_active⟩).set ti
      ⟨(pget ps ti).player_key, (pget ps ci).points, (pget ps ti).banked_points,
        (pget ps ti).has_elf, (pget ps ti).has_bauble, (pget ps ti).is_active⟩)
    = sum_points ps
  have h1 := sum_points_set ps ci
    ⟨(pget ps ci).player_key, (pget ps ti).points, (pget ps ci).banked_points,
      (pget ps ci).has_elf, (pget ps ci).has_bauble, (pget ps ci).is_active⟩ hci
  have h2 := sum_points_set (ps.set ci
      ⟨(pget ps ci).player_key, (pget ps ti).points, (pget ps ci).banked_points,
        (pget ps ci).has_elf, (pget ps ci).has_bauble, (pget ps ci).is_active⟩) ti
    ⟨(pget ps ti).player_key, (pget ps ci).points, (pget ps ti).banked_points,
      (pget ps ti).has_elf, (pget ps ti).has_bauble, (pget ps ti).is_active⟩
    (by rw [List.length_set]; exact hti)
  have hg := pget_set_ne ps ci ti
    ⟨(pget ps ci).player_key, (pget ps ti).points, (pget ps ci).banked_points,
      (pget ps ci).has_elf, (pget ps ci).has_bauble, (pget ps ci).is_active⟩
    (fun hx => hne hx.symm)
  rw [hg] at h2
  dsimp only at h1 h2
  omega

theorem gift_sum (ps : List PlayerState) (ci ti : Nat) (hci : ci < ps.length)
    (hti : ti < ps.length) (hne : ti ≠ ci)
    (hpts : GIFT_AMOUNT ≤ (pget ps ci).points)
    (hsum : sum_points ps ≤ U64MAX) :
    sum_points ((ps.set ci { pget ps ci with
        points := (pget ps ci).points - GIFT_AMOUNT }).set ti
      { pget ps ti with points := satAdd64 (pget ps ti).points GIFT_AMOUNT })
      = sum_points ps := by
  have h2 := points_two_le_sum ps ci ti hci hti (fun hx => hne hx.symm)
  have hsat : satAdd64 (pget ps ti).points GIFT_AMOUNT
      = (pget ps ti).points + GIFT_AMOUNT := by
    unfold satAdd64 GIFT_AMOUNT
    unfold GIFT_AMOUNT at hpts
    omega
  show sum_points ((ps.set ci
      ⟨(pget ps ci).player_key, (pget ps ci).points - GIFT_AMOUNT,
        (pget ps ci).banked_points, (pget ps ci).has_elf, (pget ps ci).has_bauble,
        (pget ps ci).is_active⟩).set ti
      ⟨(pget ps ti).player_key, satAdd64 (pget ps ti).points GIFT_AMOUNT,
        (pget ps ti).banked_points, (pget ps ti).has_elf, (pget ps ti).has_bauble,
        (pget ps ti).is_active⟩)
    = sum_points ps
  rw [hsat]
  have h1 := sum_points_set ps ci
    ⟨(pget ps ci).player_key, (pget ps ci).points - GIFT_AMOUNT,
      (pget ps ci).banked_points, (pget ps ci).has_elf, (pget ps ci).has_bauble,
      (pget ps ci).is_active⟩ hci
  have h3 := sum_points_set (ps.set ci
      ⟨(pget ps ci).player_key, (pget ps ci).points - GIFT_AMOUNT,
        (pget ps ci).banked_points, (pget ps ci).has_elf, (pget ps ci).has_bauble,
        (pget ps ci).is_active⟩) ti
    ⟨(pget ps ti).player_key, (pget ps ti).points + GIFT_AMOUNT,
      (pget ps ti).banked_points, (pget ps ti).has_elf, (pget ps ti).has_bauble,
      (pget ps ti).is_active⟩
    (by rw [List.length_set]; exact hti)
  have hg := pget_set_ne ps ci ti
    ⟨(pget ps ci).player_key, (pget ps ci).points - GIFT_AMOUNT,
      (pget ps ci).banked_points, (pget ps ci).has_elf, (pget ps ci).has_bauble,
      (pget ps ci).is_active⟩ (fun hx => hne hx.symm)
  rw [hg] at h3
  dsimp only at h1 h3
  have hG : GIFT_AMOUNT = 1000 := rfl
  omega

theorem eie_state_sum (g : Game) (caller : Nat) (target : Option Nat) (act : ItemAction)
    (hsum : sum_points g.players ≤ U64MAX)
    (hact : (∃ amt, act = .Steal amt) ∨ act = .Swap ∨ act = .Gift) :
    sum_points (eie_state g caller act target).players = sum_points g.players := by
  unfold eie_state
  by_cases h1 : g.status = GameStatus.Active
  case neg => rw [eie_not_active g caller act target h1]
  case pos =>
  cases hcp : g.players.get? g.current_player_index with
  | none => rw [eie_no_current g caller act target h1 hcp]
  | some cp =>
  by_cases hkey : cp.player_key = caller
  case neg => rw [eie_wrong_key g caller act target cp h1 hcp hkey]
  case pos =>
  cases target with
  | none =>
    rcases hact with ⟨amt, rfl⟩ | rfl | rfl
    · rw [eie_none_target_steal g caller amt cp h1 hcp hkey]
    · rw [eie_none_target_swap g caller cp h1 hcp hkey]
    · rw [eie_none_target_gift g caller cp h1 hcp hkey]
  | some t =>
  by_cases hne0 : t = caller
  case pos =>
    subst hne0
    rw [eie_self_target g t act cp h1 hcp hkey]
  case neg =>
  cases hfi : find_index_key t g.players with
  | none => rw [eie_target_missing g caller t act cp h1 hcp hkey hne0 hfi]
  | some ti =>
  obtain ⟨hneci, hti, hci⟩ := target_ne_current g caller t ti cp hcp hkey hne0 hfi
  rcases hact with ⟨amt, rfl⟩ | rfl | rfl
  · by_cases helf : (pget g.players ti).has_elf = true
    · rw [eie_steal_elf g caller t ti amt cp h1 hcp hkey hne0 hfi helf]
      exact flag_set_sum _ _ _ hti rfl
    · have helf2 : (pget g.players ti).has_elf = false := by
        cases hv : (pget g.players ti).has_elf
        · rfl
        · exact absurd hv helf
      by_cases hbau : (pget g.players ti).has_bauble = true
      · rw [eie_steal_bauble g caller t ti amt cp h1 hcp hkey hne0 hfi helf2 hbau]
        have hps : sum_points (g.players.set ti
            { pget g.players ti with has_bauble := false }) = sum_points g.players :=
          flag_set_sum _ _ _ hti rfl
        show sum_points (steal_transfer
          (g.players.set ti { pget g.players ti with has_bauble := false })
          g.current_player_index ti amt) = sum_points g.players
        rw [steal_transfer_sum _ _ _ amt (by rw [List.length_set]; exact hci)
          (by rw [List.length_set]; exact hti) (fun hx => hneci hx.symm)
          (by rw [hps]; exact hsum), hps]
      · have hbau2 : (pget g.players ti).has_bauble = false := by
          cases hv : (pget g.players ti).has_bauble
          · rfl
          · exact absurd hv hbau
        rw [eie_steal_normal g caller t ti amt cp h1 hcp hkey hne0 hfi helf2 hbau2]
        exact steal_transfer_sum _ _ _ amt hti hci hneci hsum
  · by_cases helf : (pget g.players ti).has_elf = true
    · rw [eie_swap_elf g caller t ti cp h1 hcp hkey hne0 hfi helf]
      exact flag_set_sum _ _ _ hti rfl
    · have helf2 : (pget g.players ti).has_elf = false := by
        cases hv : (pget g.players ti).has_elf
        · rfl
        · exact absurd hv helf
      by_cases hbau : (pget g.players ti).has_bauble = true
      · rw [eie_swap_bauble g caller t ti cp h1 hcp hkey hne0 hfi helf2 hbau]
        exact flag_set_sum _ _ _ hti rfl
      · have hbau2 : (pget g.players ti).has_bauble = false := by
          cases hv : (pget g.players ti).has_bauble
          · rfl
          · exact absurd hv hbau
        rw [eie_swap_normal g caller t ti cp h1 hcp hkey hne0 hfi helf2 hbau2 hneci]
        exact swap_sum g.players g.current_player_index ti hci hti hneci
  · by_cases hpts : GIFT_AMOUNT ≤ (pget g.players g.current_player_index).points
    · rw [eie_gift_ok g caller t ti cp h1 hcp hkey hne0 hfi hpts hneci]
      exact gift_sum g.players g.current_player_index ti hci hti hneci hpts hsum
    · rcases eie_gift_poor g caller t cp h1 hcp hkey hne0 (by omega) with he | he
      · rw [he]
      · rw [he]

end Grid

/-- Game with one player's points already at `u64::MAX`, used to show
that saturation breaks conservation. -/
def c9_sat_game : Grid.Game :=
  { status := .Active,
    players := [{ Grid.dfltPlayer with player_key := 0, points := U64MAX },
                { Grid.dfltPlayer with player_key := 1, points := 1 }],
    current_player_index := 0, grid := [], chosen_coordinates := [] }

/-- Claim C9, counterexample: over *every* game state conservation fails.
When the acting player already holds `u64::MAX` points and steals 1 point
from the target, the credit saturates (`saturating_add`) while the debit
still happens, so one point vanishes: the total drops from
`u64::MAX + 1` to `u64::MAX`. -/
theorem C9_counterexample_saturation :
    Grid.sum_points c9_sat_game.players = U64MAX + 1 ∧
    Grid.sum_points (Grid.eie_state c9_sat_game 0 (.Steal 1) (some 1)).players
      = U64MAX := by
  exact ⟨rfl, rfl⟩

/-- Claim C9 (amended): the targeted item effects Steal, Swap and Gift
conserve the total of unbanked points in every resolution branch
(blocked, reflected, applied normally, unaffordable Gift, and every
validation failure), **provided** the total of all players' points fits
in `u64`, i.e. is at most `u64::MAX`.  Without that proviso the
saturating credit can clamp while the debit still happens (see the
counterexample), so the side condition is exactly what the
`saturating_add`s force.  (On an error the transaction aborts and the
state is unchanged, which conserves trivially.) -/
theorem C9_points_conserved (g : Grid.Game) (caller : Nat) (target : Option Nat)
    (amt : Nat) (hsum : Grid.sum_points g.players ≤ U64MAX) :
    Grid.sum_points (Grid.eie_state g caller (.Steal amt) target).players
        = Grid.sum_points g.players ∧
    Grid.sum_points (Grid.eie_state g caller .Swap target).players
        = Grid.sum_points g.players ∧
    Grid.sum_points (Grid.eie_state g caller .Gift target).players
        = Grid.sum_points g.players :=
  ⟨Grid.eie_state_sum g caller target _ hsum (Or.inl ⟨amt, rfl⟩),
   Grid.eie_state_sum g caller target _ hsum (Or.inr (Or.inl rfl)),
   Grid.eie_state_sum g caller target _ hsum (Or.inr (Or.inr rfl))⟩

/-- Two-player game with small point totals, for the C9 witness. -/
def c9_small_game : Grid.Game :=
  { status := .Active,
    players := [{ Grid.dfltPlayer with player_key := 0, points := 2000 },
                { Grid.dfltPlayer with player_key := 1, points := 50 }],
    current_player_index := 0, grid := [], chosen_coordinates := [] }

/-- Witness for C9 at a concrete two-player game. -/
theorem C9_witness :
    Grid.sum_points c9_small_game.players ≤ U64MAX ∧
    (Grid.sum_points (Grid.eie_state c9_small_game 0 (.Steal 30) (some 1)).players
        = Grid.sum_points c9_small_game.players ∧
     Grid.sum_points (Grid.eie_state c9_small_game 0 .Swap (some 1)).players
        = Grid.sum_points c9_small_game.players ∧
     Grid.sum_points (Grid.eie_state c9_small_game 0 .Gift (some 1)).players
        = Grid.sum_points c9_small_game.players) :=
  ⟨by decide, C9_points_conserved c9_small_game 0 (some 1) 30 (by decide)⟩

/-! ### Defensive-flag resolution (C3) -/

/-- Game whose target player holds the block flag (`has_elf`) while the
acting player can afford a Gift. -/
def c3_gift_game : Grid.Game :=
  { status := .Active,
    players := [{ Grid.dfltPlayer with player_key := 0, points := 2000 },
                { Grid.dfltPlayer with player_key := 1, points := 0, has_elf := true }],
    current_player_index := 0, grid := [], chosen_coordinates := [] }

/-- Claim C3, counterexample: for Gift the defensive flags are never
consulted.  The target holds the block flag, yet the gift of 1000 points
is applied (the target ends with 1000 points) and the flag is not
consumed — contradicting "if the target holds the block flag it is
consumed and the effect is fully negated" as claimed for every targeted
action. -/
theorem C3_counterexample_gift_ignores_flags :
    (Grid.pget c3_gift_game.players 1).has_elf = true ∧
    (Grid.pget (Grid.eie_state c3_gift_game 0 .Gift (some 1)).players 1).points = 1000 ∧
    (Grid.pget (Grid.eie_state c3_gift_game 0 .Gift (some 1)).players 1).has_elf = true ∧
    (Grid.pget (Grid.eie_state c3_gift_game 0 .Gift (some 1)).players 0).points = 1000 := by
  exact ⟨rfl, rfl, rfl, rfl⟩

/-- Claim C3 (amended): in a valid context (active game, caller is the
current player, target resolves to index `ti ≠ caller`), defensive-flag
resolution of `execute_item_effect` is as follows.

For **Steal** and **Kill** the claimed order holds exactly: the block
flag (`has_elf`) is checked first and, if present, consumed with the
effect fully negated; otherwise the reflect flag (`has_bauble`) is
checked and, if present, consumed with the same effect re-applied with
actor and target roles swapped (the reflected steal draws from the actor
and credits the target via the same `steal_transfer`; the reflected kill
zeroes the actor); otherwise the effect applies normally.

For **Swap** the block check matches the claim, but a held reflect flag
is merely consumed with **no** score change (the swap is not re-applied).

**Gift** consults no defensive flag at all: whenever the actor can afford
it, the transfer happens and the target's flags are untouched. -/
theorem C3_defensive_resolution (g : Grid.Game) (caller t ti amt : Nat)
    (cp : Grid.PlayerState)
    (h : g.status = Grid.GameStatus.Active)
    (hcp : g.players.get? g.current_player_index = some cp)
    (hkey : cp.player_key = caller) (hne : t ≠ caller)
    (hfi : Grid.find_index_key t g.players = some ti) :
    ((Grid.pget g.players ti).has_elf = true →
      Grid.execute_item_effect g caller (.Steal amt) (some t)
        = .ok (Grid.grid_advance_turn (Grid.with_players g
            (g.players.set ti { Grid.pget g.players ti with has_elf := false })))) ∧
    ((Grid.pget g.players ti).has_elf = false →
      (Grid.pget g.players ti).has_bauble = true →
      Grid.execute_item_effect g caller (.Steal amt) (some t)
        = .ok (Grid.grid_advance_turn (Grid.with_players g
            (Grid.steal_transfer
              (g.players.set ti { Grid.pget g.players ti with has_bauble := false })
              g.current_player_index ti amt)))) ∧
    ((Grid.pget g.players ti).has_elf = false →
      (Grid.pget g.players ti).has_bauble = false →
      Grid.execute_item_effect g caller (.Steal amt) (some t)
        = .ok (Grid.grid_advance_turn (Grid.with_players g
            (Grid.steal_transfer g.players ti g.current_player_index amt)))) ∧
    ((Grid.pget g.players ti).has_elf = true →
      Grid.execute_item_effect g caller .Swap (some t)
        = .ok (Grid.grid_advance_turn (Grid.with_players g
            (g.players.set ti { Grid.pget g.players ti with has_elf := false })))) ∧
    ((Grid.pget g.players ti).has_elf = false →
      (Grid.pget g.players ti).has_bauble = true →
      Grid.execute_item_effect g caller .Swap (some t)
        = .ok (Grid.grid_advance_turn (Grid.with_players g
            (g.players.set ti { Grid.pget g.players ti with has_bauble := false })))) ∧
    ((Grid.pget g.players ti).has_elf = false →
      (Grid.pget g.players ti).has_bauble = false →
      Grid.execute_item_effect g caller .Swap (some t)
        = .ok (Grid.grid_advance_turn (Grid.with_players g
            ((g.players.set g.current_player_index
                { Grid.pget g.players g.current_player_index with
                    points := (Grid.pget g.players ti).points }).set ti
              { Grid.pget g.players ti with
                  points := (Grid.pget g.players g.current_player_index).points })))) ∧
    (Grid.GIFT_AMOUNT ≤ (Grid.pget g.players g.current_player_index).points →
      Grid.execute_item_effect g caller .Gift (some t)
        = .ok (Grid.grid_advance_turn (Grid.with_players g
            ((g.players.set g.current_player_index
                { Grid.pget g.players g.current_player_index with
                    points := (Grid.pget g.players g.current_player_index).points
                      - Grid.GIFT_AMOUNT }).set ti
              { Grid.pget g.players ti with
                  points := satAdd64 (Grid.pget g.players ti).points
                    Grid.GIFT_AMOUNT })))) ∧
    ((Grid.pget g.players ti).has_elf = true →
      Grid.execute_item_effect g caller .Kill (some t)
        = .ok (Grid.grid_advance_turn (Grid.with_players g
            (g.players.set ti { Grid.pget g.players ti with has_elf := false })))) ∧
    ((Grid.pget g.players ti).has_elf = false →
      (Grid.pget g.players ti).has_bauble = true →
      Grid.execute_item_effect g caller .Kill (some t)
        = .ok (Grid.grid_advance_turn (Grid.with_players g
            (Grid.kill_reset
              (g.players.set ti { Grid.pget g.players ti with has_bauble := false })
              g.current_player_index)))) ∧
    ((Grid.pget g.players ti).has_elf = false →
      (Grid.pget g.players ti).has_bauble = false →
      Grid.execute_item_effect g caller .Kill (some t)
        = .ok (Grid.grid_advance_turn (Grid.with_players g
            (Grid.kill_reset g.players ti)))) := by
  obtain ⟨hciti, hti, hci⟩ := Grid.target_ne_current g caller t ti cp hcp hkey hne hfi
  refine ⟨?_, ?_, ?_, ?_, ?_, ?_, ?_, ?_, ?_, ?_⟩
  · intro helf
    exact Grid.eie_steal_elf g caller t ti amt cp h hcp hkey hne hfi helf
  · intro helf hbau
    exact Grid.eie_steal_bauble g caller t ti amt cp h hcp hkey hne hfi helf hbau
  · intro helf hbau
    exact Grid.eie_steal_normal g caller t ti amt cp h hcp hkey hne hfi helf hbau
  · intro helf
    exact Grid.eie_swap_elf g caller t ti cp h hcp hkey hne hfi helf
  · intro helf hbau
    exact Grid.eie_swap_bauble g caller t ti cp h hcp hkey hne hfi helf hbau
  · intro helf hbau
    exact Grid.eie_swap_normal g caller t ti cp h hcp hkey hne hfi helf hbau hciti
  · intro hpts
    exact Grid.eie_gift_ok g caller t ti cp h hcp hkey hne hfi hpts hciti
  · intro helf
    exact Grid.eie_kill_elf g caller t ti cp h hcp hkey hne hfi helf
  · intro helf hbau
    exact Grid.eie_kill_bauble g caller t ti cp h hcp hkey hne hfi helf hbau
  · intro helf hbau
    exact Grid.eie_kill_normal g caller t ti cp h hcp hkey hne hfi helf hbau

/-- Acting player of the C3 witness game. -/
def c3_p0 : Grid.PlayerState := { Grid.dfltPlayer with player_key := 10, points := 500 }

/-- Witness game for C3: the target player holds the block flag. -/
def c3_block_game : Grid.Game :=
  { status := .Active,
    players := [c3_p0,
                { Grid.dfltPlayer with player_key := 20, points := 700, has_elf := true }],
    current_player_index := 0, grid := [], chosen_coordinates := [] }

/-- Witness for C3: a Steal against a block-flag holder is negated with
the flag consumed (the spec's blocked-steal scenario). -/
theorem C3_witness :
    (c3_block_game.status = Grid.GameStatus.Active ∧
     c3_block_game.players.get? c3_block_game.current_player_index = some c3_p0 ∧
     c3_p0.player_key = 10 ∧ (20 : Nat) ≠ 10 ∧
     Grid.find_index_key 20 c3_block_game.players = some 1 ∧
     (Grid.pget c3_block_game.players 1).has_elf = true) ∧
    Grid.execute_item_effect c3_block_game 10 (.Steal 100) (some 20)
      = .ok (Grid.grid_advance_turn (Grid.with_players c3_block_game
          (c3_block_game.players.set 1
            { Grid.pget c3_block_game.players 1 with has_elf := false }))) :=
  ⟨⟨rfl, rfl, rfl, by decide, rfl, rfl⟩,
    (C3_defensive_resolution c3_block_game 10 20 1 100 c3_p0 rfl rfl rfl
      (by decide) rfl).1 rfl⟩

/-! ### Movement range rejection (C8) -/

namespace Pirate

/-- Resulting state of `move_ship`: an error aborts the (rolled back)
transaction, leaving the state unchanged. -/
def move_apply (g : PirateGame) (caller : Nat) (sid : String) (tx ty : Nat)
    (dt : Option Nat) (now : Nat) : PirateGame :=
  match move_ship g caller sid tx ty dt now with
  | .ok g2 => g2
  | .error _ => g

end Pirate

/-- Claim C8: `move_ship` rejects any move whose Manhattan distance from
the ship's current position to the destination exceeds the ship's speed:
it returns the out-of-range coordinate error (`InvalidCoordinate`, the
spec's invalid/out-of-range-coordinate kind) and, the transaction being
aborted, the game state is unchanged — no ship position, player field or
turn index is mutated. -/
theorem C8_move_out_of_range_rejected (g : Pirate.PirateGame) (caller : Nat)
    (sid : String) (tx ty : Nat) (dt : Option Nat) (now : Nat)
    (cp p0 : Pirate.PlayerData) (sh : Pirate.ShipData)
    (hst : g.status = Pirate.GameStatus.Active)
    (hcp : Pirate.get_current_player g = some cp)
    (hkey : cp.pubkey = caller)
    (hbx : tx < Pirate.MAP_SIZE) (hby : ty < Pirate.MAP_SIZE)
    (hfp : g.players.find? (fun p => p.pubkey == caller) = some p0)
    (hfs : p0.ships.find? (fun s => s.id == sid) = some sh)
    (hdist : sh.speed < absDiff tx sh.position_x + absDiff ty sh.position_y) :
    Pirate.move_ship g caller sid tx ty dt now
        = .error Pirate.GameError.InvalidCoordinate ∧
    Pirate.move_apply g caller sid tx ty dt now = g := by
  have hm : Pirate.move_ship g caller sid tx ty dt now
      = .error Pirate.GameError.InvalidCoordinate := by
    unfold Pirate.move_ship
    rw [if_neg (by simp [hst]), hcp]
    simp [hkey, hbx, hby, hfp, hfs, Nat.not_le.mpr hdist]
  refine ⟨hm, ?_⟩
  unfold Pirate.move_apply
  rw [hm]

/-- The player of `c8_game` (see spec §8: speed 3, ordered 5 cells away). -/
def c8_player : Pirate.PlayerData :=
  { Pirate.dfltPlayerData with
      pubkey := 7
      is_active := true
      ships := [{ id := "s1", health := 100, attack := 20, defense := 10,
                  speed := 3, position_x := 0, position_y := 0,
                  last_action_turn := 0 }] }

/-- The ship of `c8_player`. -/
def c8_ship : Pirate.ShipData :=
  { id := "s1", health := 100, attack := 20, defense := 10,
    speed := 3, position_x := 0, position_y := 0, last_action_turn := 0 }

/-- One-player game in which `c8_player` tries an out-of-range move. -/
def c8_game : Pirate.PirateGame :=
  { status := .Active, players := [c8_player],
    player_count := 1, current_player_index := 0, territory_map := [],
    turn_number := 3, completed_at := none, winner := none,
    weather_type := .Calm, weather_duration := 2 }

/-- Witness for C8: a speed-3 ship at the origin ordered to `(5,0)`,
Manhattan distance 5; the move is rejected with `InvalidCoordinate` and
the state is unchanged. -/
theorem C8_witness :
    (c8_game.status = Pirate.GameStatus.Active ∧
     Pirate.get_current_player c8_game = some c8_player ∧
     c8_player.pubkey = 7 ∧
     5 < Pirate.MAP_SIZE ∧ 0 < Pirate.MAP_SIZE ∧
     c8_game.players.find? (fun p => p.pubkey == 7) = some c8_player ∧
     c8_player.ships.find? (fun s => s.id == "s1") = some c8_ship ∧
     c8_ship.speed < absDiff 5 c8_ship.position_x + absDiff 0 c8_ship.position_y) ∧
    (Pirate.move_ship c8_game 7 ("s1") 5 0 none 0
        = .error Pirate.GameError.InvalidCoordinate ∧
     Pirate.move_apply c8_game 7 ("s1") 5 0 none 0 = c8_game) :=
  ⟨⟨rfl, rfl, rfl, by decide, by decide, rfl, rfl, by decide⟩,
   C8_move_out_of_range_rejected c8_game 7 ("s1") 5 0 none 0 c8_player c8_player c8_ship
     rfl rfl rfl (by decide) (by decide) rfl rfl (by decide)⟩

/-! ### Combat damage (C7) -/

namespace Pirate

/-- Record update used in the C7 statement (see `Grid.with_players`). -/
def pwith_players (g : PirateGame) (ps : List PlayerData) : PirateGame :=
  { g with players := ps }

theorem damage_ships_none (tid : String) (apos : Nat × Nat) (aatk : Nat)
    (ts : List ShipData) (h : ∀ u ∈ ts, u.id ≠ tid) :
    damage_ships tid apos aatk ts = .ok (ts, false, false, 0) := by
  induction ts with
  | nil => rfl
  | cons s rest ih =>
    have hs : (s.id == tid) = false := by simp [h s (List.mem_cons_self s rest)]
    have ih2 := ih (fun u hu => h u (List.mem_cons_of_mem s hu))
    simp [damage_ships, hs, ih2]

theorem damage_ships_hit (tid : String) (apos : Nat × Nat) (aatk : Nat)
    (ts1 ts2 : List ShipData) (s : ShipData)
    (hts1 : ∀ u ∈ ts1, u.id ≠ tid) (hs : s.id = tid)
    (hadj : absDiff s.position_x apos.1 + absDiff s.position_y apos.2 ≤ 1) :
    damage_ships tid apos aatk (ts1 ++ s :: ts2)
      = .ok (ts1 ++ (if s.health ≤ max (aatk - s.defense) 1
                     then { s with health := 0 }
                     else { s with health := s.health - max (aatk - s.defense) 1 }) :: ts2,
             true, decide (s.health ≤ max (aatk - s.defense) 1),
             max (aatk - s.defense) 1) := by
  induction ts1 with
  | nil =>
    have hsb : (s.id == tid) = true := by simp [hs]
    by_cases hh : s.health ≤ max (aatk - s.defense) 1
    · simp [damage_ships, hsb, hadj, hh]
    · simp [damage_ships, hsb, hadj, hh]
  | cons u rest ih =>
    have hu : (u.id == tid) = false := by simp [hts1 u (List.mem_cons_self u rest)]
    have ih2 := ih (fun v hv => hts1 v (List.mem_cons_of_mem u hv))
    simp [damage_ships, hu, ih2]

end Pirate

namespace Pirate

theorem attack_pass_none (caller : Nat) (tid : String) (apos : Nat × Nat) (aatk : Nat)
    (ps : List PlayerData)
    (h : ∀ p ∈ ps, p.pubkey ≠ caller → ∀ u ∈ p.ships, u.id ≠ tid) :
    attack_pass caller tid apos aatk ps = .ok (ps, false, false, 0) := by
  induction ps with
  | nil => rfl
  | cons p rest ih =>
    have ih2 := ih (fun q hq => h q (List.mem_cons_of_mem p hq))
    by_cases hp : p.pubkey = caller
    · simp [attack_pass, hp, ih2]
    · have hpb : (p.pubkey == caller) = false := by simp [hp]
      have hd := damage_ships_none tid apos aatk p.ships
        (h p (List.mem_cons_self p rest) hp)
      simp [attack_pass, hpb, hd, ih2]

theorem attack_pass_hit (caller : Nat) (tid : String) (apos : Nat × Nat) (aatk : Nat)
    (ps1 ps2 : List PlayerData) (pk : PlayerData) (ts1 ts2 : List ShipData) (s : ShipData)
    (hpk : pk.pubkey ≠ caller) (hships : pk.ships = ts1 ++ s :: ts2)
    (hs : s.id = tid) (hts1 : ∀ u ∈ ts1, u.id ≠ tid)
    (hps2 : ∀ p ∈ ps2, p.pubkey ≠ caller → ∀ u ∈ p.ships, u.id ≠ tid)
    (hps1 : ∀ p ∈ ps1, p.pubkey ≠ caller → ∀ u ∈ p.ships, u.id ≠ tid)
    (hadj : absDiff s.position_x apos.1 + absDiff s.position_y apos.2 ≤ 1) :
    attack_pass caller tid apos aatk (ps1 ++ pk :: ps2)
      = .ok (ps1 ++ { pk with ships :=
               ts1 ++ (if s.health ≤ max (aatk - s.defense) 1
                       then { s with health := 0 }
                       else { s with health := s.health - max (aatk - s.defense) 1 }) :: ts2 }
               :: ps2,
             true, decide (s.health ≤ max (aatk - s.defense) 1),
             max (aatk - s.defense) 1) := by
  induction ps1 with
  | nil =>
    have hpb : (pk.pubkey == caller) = false := by simp [hpk]
    have hd := damage_ships_hit tid apos aatk ts1 ts2 s hts1 hs hadj
    have hrest := attack_pass_none caller tid apos aatk ps2 hps2
    simp [attack_pass, hpb, hships, hd, hrest]
  | cons q rest ih =>
    have ih2 := ih (fun p hp => hps1 p (List.mem_cons_of_mem q hp))
    by_cases hq : q.pubkey = caller
    · simp [attack_pass, hq, ih2]
    · have hqb : (q.pubkey == caller) = false := by simp [hq]
      have hd := damage_ships_none tid apos aatk q.ships
        (hps1 q (List.mem_cons_self q rest) hq)
      simp [attack_pass, hqb, hd, ih2]

end Pirate

namespace Pirate

theorem filter_ships_id (tid : String) (ts : List ShipData)
    (h : ∀ u ∈ ts, u.id ≠ tid) :
    ts.filter (fun u => ¬(u.id == tid)) = ts := by
  apply List.filter_eq_self.mpr
  intro u hu
  simp [h u hu]

theorem map_retain_id (tid : String) (ps : List PlayerData)
    (h : ∀ p ∈ ps, ∀ u ∈ p.ships, u.id ≠ tid) :
    ps.map (fun p => { p with ships := p.ships.filter (fun u => ¬(u.id == tid)) }) = ps := by
  induction ps with
  | nil => rfl
  | cons p rest ih =>
    have h1 := filter_ships_id tid p.ships (h p (List.mem_cons_self p rest))
    have h2 := ih (fun q hq => h q (List.mem_cons_of_mem p hq))
    simp only [List.map_cons, h1, h2]

end Pirate

/-- Claim C7: for a successful attack (active game, caller's turn, the
caller's attacker ship found with positive attack, the unique target ship
adjacent to it), the damage dealt is exactly `max 1 (attack - defense)` —
so at least 1, and exactly 1 when `attack ≤ defense` — the target's
health is reduced by truncated (saturating) subtraction, and when the
damage reaches the target's health the target ship is removed from its
owner's ship list within the same `attack_ship` call. -/
theorem C7_attack_damage (g : Pirate.PirateGame) (caller : Nat) (aid tid : String)
    (now : Nat) (cp pk : Pirate.PlayerData) (s : Pirate.ShipData)
    (ps1 ps2 : List Pirate.PlayerData) (ts1 ts2 : List Pirate.ShipData)
    (apos : Nat × Nat) (aatk : Nat)
    (hst : g.status = Pirate.GameStatus.Active)
    (hcp : Pirate.get_current_player g = some cp)
    (hkey : cp.pubkey = caller)
    (hfa : Pirate.find_attacker g.players caller aid = (apos, aatk))
    (hatk : 0 < aatk)
    (hdec : g.players = ps1 ++ pk :: ps2)
    (hpk : pk.pubkey ≠ caller)
    (hships : pk.ships = ts1 ++ s :: ts2)
    (hsid : s.id = tid)
    (hts : ∀ u ∈ ts1 ++ ts2, u.id ≠ tid)
    (hno : ∀ p ∈ ps1 ++ ps2, ∀ u ∈ p.ships, u.id ≠ tid)
    (hadj : absDiff s.position_x apos.1 + absDiff s.position_y apos.2 ≤ 1) :
    1 ≤ max 1 (aatk - s.defense) ∧
    (aatk ≤ s.defense → max 1 (aatk - s.defense) = 1) ∧
    Pirate.attack_ship g caller aid tid now
      = .ok (Pirate.pirate_advance_turn (Pirate.pwith_players g
          (if s.health ≤ max 1 (aatk - s.defense)
           then ps1 ++ { pk with ships := ts1 ++ ts2 } :: ps2
           else ps1 ++ { pk with ships :=
               ts1 ++ { s with health := s.health - max 1 (aatk - s.defense) } :: ts2 }
               :: ps2))
          now) := by
  have hts1 : ∀ u ∈ ts1, u.id ≠ tid :=
    fun u hu => hts u (List.mem_append_left ts2 hu)
  have hts2 : ∀ u ∈ ts2, u.id ≠ tid :=
    fun u hu => hts u (List.mem_append_right ts1 hu)
  have hps1 : ∀ p ∈ ps1, p.pubkey ≠ caller → ∀ u ∈ p.ships, u.id ≠ tid :=
    fun p hp _ => hno p (List.mem_append_left ps2 hp)
  have hps2 : ∀ p ∈ ps2, p.pubkey ≠ caller → ∀ u ∈ p.ships, u.id ≠ tid :=
    fun p hp _ => hno p (List.mem_append_right ps1 hp)
  have hmx : max (aatk - s.defense) 1 = max 1 (aatk - s.defense) := Nat.max_comm _ _
  have hpass := Pirate.attack_pass_hit caller tid apos aatk ps1 ps2 pk ts1 ts2 s
    hpk hships hsid hts1 hps2 hps1 hadj
  rw [hmx] at hpass
  refine ⟨Nat.le_max_left _ _, ?_, ?_⟩
  · intro hle
    have : aatk - s.defense = 0 := Nat.sub_eq_zero_of_le hle
    simp [this]
  unfold Pirate.attack_ship
  rw [if_neg (by simp [hst]), hcp]
  rw [hdec] at hfa
  rw [hdec, hfa] at *
  by_cases hh : s.health ≤ max 1 (aatk - s.defense)
  · have hmap1 : ps1.map
        (fun p => { p with ships := p.ships.filter (fun u => ¬(u.id == tid)) }) = ps1 :=
      Pirate.map_retain_id tid ps1 (fun p hp => hno p (List.mem_append_left ps2 hp))
    have hmap2 : ps2.map
        (fun p => { p with ships := p.ships.filter (fun u => ¬(u.id == tid)) }) = ps2 :=
      Pirate.map_retain_id tid ps2 (fun p hp => hno p (List.mem_append_right ps1 hp))
    have hf1 : List.filter (fun u => !decide (u.id = tid)) ts1 = ts1 :=
      List.filter_eq_self.mpr (fun u hu => by simp [hts1 u hu])
    have hf2 : List.filter (fun u => !decide (u.id = tid)) ts2 = ts2 :=
      List.filter_eq_self.mpr (fun u hu => by simp [hts2 u hu])
    simp at hmap1 hmap2
    simp [hkey, hatk, hpass, hh, Pirate.pwith_players, hmap1, hmap2, hf1, hf2, hsid]
  · simp [hkey, hatk, hpass, hh, Pirate.pwith_players]

/-- Attacking player for the C7 witness (ship attack 20 at `(2,2)`). -/
def c7_attacker : Pirate.PlayerData :=
  { Pirate.dfltPlayerData with
      pubkey := 7
      is_active := true
      ships := [{ id := "a1", health := 100, attack := 20, defense := 10,
                  speed := 3, position_x := 2, position_y := 2,
                  last_action_turn := 0 }] }

/-- Target ship for the C7 witness (spec scenario: defense 25, health 10). -/
def c7_tship : Pirate.ShipData :=
  { id := "t1", health := 10, attack := 5, defense := 25,
    speed := 2, position_x := 2, position_y := 3, last_action_turn := 0 }

/-- Defending player for the C7 witness. -/
def c7_defender : Pirate.PlayerData :=
  { Pirate.dfltPlayerData with
      pubkey := 9
      is_active := true
      ships := [c7_tship] }

/-- Two-player game for the C7 witness: it is the attacker's turn and the
target ship stands on an adjacent cell. -/
def c7_game : Pirate.PirateGame :=
  { status := .Active, players := [c7_attacker, c7_defender],
    player_count := 2, current_player_index := 0, territory_map := [],
    turn_number := 3, completed_at := none, winner := none,
    weather_type := .Calm, weather_duration := 2 }

/-- Witness for C7 at the spec's scenario: attack 20 against defense 25
and health 10 gives damage `max 1 (20 - 25) = 1`, the target survives
with health 9 (the `if` in the conclusion takes the else branch since
`10 ≤ 1` fails). -/
theorem C7_witness :
    (c7_game.status = Pirate.GameStatus.Active ∧
     Pirate.get_current_player c7_game = some c7_attacker ∧
     c7_attacker.pubkey = 7 ∧
     Pirate.find_attacker c7_game.players 7 ("a1") = ((2, 2), 20) ∧
     0 < 20 ∧
     c7_game.players = [c7_attacker] ++ c7_defender :: [] ∧
     c7_defender.pubkey ≠ 7 ∧
     c7_defender.ships = [] ++ c7_tship :: [] ∧
     c7_tship.id = "t1" ∧
     (∀ u ∈ ([] : List Pirate.ShipData) ++ [], u.id ≠ "t1") ∧
     (∀ p ∈ [c7_attacker] ++ ([] : List Pirate.PlayerData),
        ∀ u ∈ p.ships, u.id ≠ "t1") ∧
     absDiff c7_tship.position_x 2 + absDiff c7_tship.position_y 2 ≤ 1) ∧
    (1 ≤ max 1 (20 - c7_tship.defense) ∧
     (20 ≤ c7_tship.defense → max 1 (20 - c7_tship.defense) = 1) ∧
     Pirate.attack_ship c7_game 7 ("a1") ("t1") 0
       = .ok (Pirate.pirate_advance_turn (Pirate.pwith_players c7_game
           (if c7_tship.health ≤ max 1 (20 - c7_tship.defense)
            then [c7_attacker] ++ { c7_defender with ships := [] ++ [] } :: []
            else [c7_attacker] ++ { c7_defender with ships :=
                [] ++ { c7_tship with
                    health := c7_tship.health - max 1 (20 - c7_tship.defense) } :: [] }
                :: []))
           0)) :=
  ⟨⟨rfl, rfl, rfl, rfl, by decide, rfl, by decide, rfl, rfl, by decide, by decide,
    by decide⟩,
   C7_attack_damage c7_game 7 ("a1") ("t1") 0 c7_attacker c7_defender c7_tship
     [c7_attacker] [] [] [] (2, 2) 20
     rfl rfl rfl rfl (by decide) rfl (by decide) rfl rfl (by decide) (by decide)
     (by decide)⟩
